import Mathlib

/-!
# Verification of the ccindex symbol-extraction engine

This file is a shallow embedding of `ccindex.py`, a script that extracts
C/C++ symbol information from one translation unit through the clang
front end, and proofs about the embedded definitions.

Modelling conventions:
* Python dicts with string keys are embedded as association lists
  `List (Key × Value)` where `Key` is the closed set of field names the
  script ever uses, and `Value` is a JSON-like value type.  Assignment
  `symbol[k] = v` is `setKey`, subscripting is `getKey`.
* The clang cursor/type interface is opaque in the source; it is embedded
  as explicit data (structures `Cursor`, `CType`, ...) carrying exactly
  the attributes the script queries.
* Python string primitives (`str.replace`, `str.split`, `re.sub` with the
  concrete patterns the script uses, ...) are embedded as structurally
  recursive functions over `List Char` (`pyReplace`, `pySplit`, ...), so
  that every definition evaluates inside the kernel.
* Machine floats (the elapsed-time fields) are embedded as integers:
  only their provenance from distinct clock readings matters here.
* Python exceptions (`raise ValueError`, `UnboundLocalError`, crashes on
  `None`) are embedded as `Except String`.
-/

/-! ## Executable string primitives -/

/-- `listStartsWith s p`: does the char list `s` start with `p`? -/
def listStartsWith : List Char → List Char → Bool
  | _, [] => true
  | [], _ :: _ => false
  | c :: cs, p :: ps => c = p && listStartsWith cs ps

/-- Fueled core of `pyReplace`: replace non-overlapping occurrences of
`pat` (nonempty) by `rep`, left to right, as Python `str.replace` and
`re.sub` on a literal pattern do.  The fuel is the input length, which
always suffices since each step consumes at least one character. -/
def replaceAllAux (pat rep : List Char) : Nat → List Char → List Char
  | 0, s => s
  | _ + 1, [] => []
  | fuel + 1, c :: rest =>
    if listStartsWith (c :: rest) pat && !pat.isEmpty then
      rep ++ replaceAllAux pat rep fuel (rest.drop (pat.length - 1))
    else c :: replaceAllAux pat rep fuel rest

/-- Python `s.replace(pat, rep)` for a nonempty `pat` (the source never
replaces an empty pattern). -/
def pyReplace (s pat rep : String) : String :=
  String.mk (replaceAllAux pat.toList rep.toList s.toList.length s.toList)

/-- Fueled core of `pySplit`: split on a nonempty separator, Python
`str.split(sep)` semantics. -/
def splitOnAux (sep : List Char) : Nat → List Char → List Char → List (List Char)
  | 0, _, acc => [acc.reverse]
  | _ + 1, [], acc => [acc.reverse]
  | fuel + 1, c :: rest, acc =>
    if listStartsWith (c :: rest) sep && !sep.isEmpty then
      acc.reverse :: splitOnAux sep fuel (rest.drop (sep.length - 1)) []
    else splitOnAux sep fuel rest (c :: acc)

/-- Python `s.split(sep)` for a nonempty `sep` (the source never splits
on an empty separator). -/
def pySplit (s sep : String) : List String :=
  if sep = "" then [s]
  else (splitOnAux sep.toList s.toList.length s.toList []).map String.mk

/-- ASCII lowercasing of one character (the source only lowercases ASCII
enum-constant names such as `"CursorKind.CXX_METHOD"`). -/
def charLower (c : Char) : Char :=
  if 'A' ≤ c ∧ c ≤ 'Z' then Char.ofNat (c.toNat + 32) else c

/-- Python `s.lower()` on the ASCII strings the source lowercases. -/
def pyLower (s : String) : String :=
  String.mk (s.toList.map charLower)

/-- The whitespace set of Python `str.strip()` / `\s`. -/
def isPySpace (c : Char) : Bool :=
  c = ' ' || c = '\t' || c = '\n' || c = '\r' || c = Char.ofNat 11 || c = Char.ofNat 12

/-- Python `s.strip()`. -/
def pyTrim (s : String) : String :=
  String.mk ((((s.toList.dropWhile isPySpace).reverse).dropWhile isPySpace).reverse)

/-- Python `s.lstrip()`. -/
def pyTrimLeft (s : String) : String :=
  String.mk (s.toList.dropWhile isPySpace)

/-- Python `s.startswith(p)`. -/
def pyStartsWith (s p : String) : Bool :=
  listStartsWith s.toList p.toList

/-- Python `s.endswith(p)`. -/
def pyEndsWith (s p : String) : Bool :=
  listStartsWith s.toList.reverse p.toList.reverse

/-- Drop the first `n` characters (used after a successful prefix test,
where Python's `re.sub` removed an `n`-character prefix). -/
def pyDrop (s : String) (n : Nat) : String :=
  String.mk (s.toList.drop n)

/-- Python `sep.join(parts)`. -/
def pyJoin (sep : String) (parts : List String) : String :=
  match parts with
  | [] => ""
  | p :: rest => rest.foldl (fun acc q => acc ++ sep ++ q) p

/-- Python `len(s)`: number of characters. -/
def pyLen (s : String) : Nat :=
  s.toList.length

/-- Python `int(s)` on a nonempty all-digit string; `None` models the
`ValueError` on anything else (signs/whitespace never occur at the one
call site, which parses pieces of `"type-parameter-X-Y"`). -/
def pyToNat (s : String) : Option Nat :=
  if s.toList ≠ [] ∧ s.toList.all Char.isDigit then
    some (s.toList.foldl (fun acc c => acc * 10 + (c.toNat - '0'.toNat)) 0)
  else none

/-- Python `sub in s` (substring containment), via splitting. -/
def pyContains (s sub : String) : Bool :=
  (pySplit s sub).length > 1

/-! ## Keys, values, dict operations -/

/-- The closed set of dict keys used by `ccindex.py` (top-level symbol
fields, nested type-info fields, hierarchy fields, result fields). -/
inductive Key where
  | spelling
  | hierarchy
  | parent_kind
  | location
  | kind
  | comment
  | usage
  | from_macro_key
  | declaration
  | declaration_pretty
  | is_template
  | template_args_list
  | args_list
  | return_type
  | specifier
  | no_throw_guarantee
  | base_clause
  | is_abstract
  | size
  | access
  | is_member
  | POD
  | type
  | type_alias_underlying_type
  | type_alias_chain
  | canonical_type
  | is_deleted
  | method_property
  | constructor_property
  | destructor_property
  | static_member
  | scoped_enum
  | enum_underlying_type
  | enum_value
  | id
  | transparent
  | type_size
  | is_type_alias
  | is_type_param
  | is_array
  | is_pointer
  | is_function
  | type_param_decl_location
  | array_size
  | array_element_type
  | pointee_type
  | template_spelling
  | template_location
  | param_index
  | arg_spelling
  | default_expr
  | type_info
  | virtual_inheritance
  | definition_location
  | file
  | included_at
  | depth
  | symbols
  | includes
  | errors
  | time_parsing
  | time_traversing
  deriving DecidableEq, Repr

/-- A JSON-like value: the codomain of the dicts `ccindex.py` builds. -/
inductive Value where
  | vStr : String → Value
  | vBool : Bool → Value
  | vInt : Int → Value
  | vNone : Value
  | vList : List Value → Value
  | vDict : List (Key × Value) → Value
  deriving Repr

/-- Python dict assignment `d[k] = v` on an insertion-ordered dict:
overwrite in place if the key exists, else append. -/
def setKey : List (Key × Value) → Key → Value → List (Key × Value)
  | [], k, v => [(k, v)]
  | (k', v') :: rest, k, v =>
    if k' = k then (k, v) :: rest else (k', v') :: setKey rest k v

/-- Python dict subscript `d[k]`, as an `Option`. -/
def getKey : List (Key × Value) → Key → Option Value
  | [], _ => none
  | (k', v') :: rest, k => if k' = k then some v' else getKey rest k

@[simp] theorem getKey_setKey (d : List (Key × Value)) (k k' : Key) (v : Value) :
    getKey (setKey d k v) k' = if k' = k then some v else getKey d k' := by
  induction d with
  | nil =>
    simp only [setKey, getKey]
    by_cases h : k = k'
    · subst h; simp
    · rw [if_neg h, if_neg (fun hh => h hh.symm)]
  | cons hd rest ih =>
    obtain ⟨k0, v0⟩ := hd
    by_cases h0 : k0 = k
    · subst h0
      simp only [setKey, if_pos rfl, getKey]
      by_cases h1 : k0 = k'
      · subst h1; simp
      · rw [if_neg h1, if_neg (fun hh => h1 hh.symm), if_neg h1]
    · simp only [setKey, if_neg h0, getKey]
      by_cases h1 : k0 = k'
      · subst h1
        rw [if_pos rfl, if_neg h0, if_pos rfl]
      · rw [if_neg h1, if_neg h1, ih]

/-- Python dict subscript `d[k]` where a missing key is a `KeyError`. -/
def dictGetE (d : List (Key × Value)) (k : Key) : Except String Value :=
  match getKey d k with
  | some v => .ok v
  | none => .error "KeyError"

/-- Python truthiness of a value (used for `if symbol["from_macro"]:`,
`if symbol["is_deleted"]:`, `if not temp_cursor_spelling:`, ...). -/
def valueTruthy : Value → Bool
  | .vStr s => !(s.toList.isEmpty)
  | .vBool b => b
  | .vInt n => !(n == 0)
  | .vNone => false
  | .vList l => !l.isEmpty
  | .vDict d => !d.isEmpty

/-! ## Enumerations of the clang front-end interface -/

/-- The `clang.cindex.CursorKind` constants that `ccindex.py` mentions. -/
inductive CursorKind where
  | translation_unit
  | namespaceKind
  | constructor
  | destructor
  | cxx_method
  | conversion_function
  | function_template
  | class_template
  | enum_decl
  | enum_constant_decl
  | field_decl
  | class_decl
  | struct_decl
  | function_decl
  | var_decl
  | typedef_decl
  | type_alias_decl
  | macro_instantiation
  | no_decl_found
  | template_type_parameter
  | template_non_type_parameter
  | parm_decl
  | cxx_final_attr
  | cxx_override_attr
  | cxx_base_specifier
  deriving DecidableEq, Repr

/-- `str(kind)` for a cursor kind, as the Python `clang.cindex` enum
prints it (e.g. `str(CursorKind.CXX_METHOD) == "CursorKind.CXX_METHOD"`). -/
def kindPyStr : CursorKind → String
  | .translation_unit => "CursorKind.TRANSLATION_UNIT"
  | .namespaceKind => "CursorKind.NAMESPACE"
  | .constructor => "CursorKind.CONSTRUCTOR"
  | .destructor => "CursorKind.DESTRUCTOR"
  | .cxx_method => "CursorKind.CXX_METHOD"
  | .conversion_function => "CursorKind.CONVERSION_FUNCTION"
  | .function_template => "CursorKind.FUNCTION_TEMPLATE"
  | .class_template => "CursorKind.CLASS_TEMPLATE"
  | .enum_decl => "CursorKind.ENUM_DECL"
  | .enum_constant_decl => "CursorKind.ENUM_CONSTANT_DECL"
  | .field_decl => "CursorKind.FIELD_DECL"
  | .class_decl => "CursorKind.CLASS_DECL"
  | .struct_decl => "CursorKind.STRUCT_DECL"
  | .function_decl => "CursorKind.FUNCTION_DECL"
  | .var_decl => "CursorKind.VAR_DECL"
  | .typedef_decl => "CursorKind.TYPEDEF_DECL"
  | .type_alias_decl => "CursorKind.TYPE_ALIAS_DECL"
  | .macro_instantiation => "CursorKind.MACRO_INSTANTIATION"
  | .no_decl_found => "CursorKind.NO_DECL_FOUND"
  | .template_type_parameter => "CursorKind.TEMPLATE_TYPE_PARAMETER"
  | .template_non_type_parameter => "CursorKind.TEMPLATE_NON_TYPE_PARAMETER"
  | .parm_decl => "CursorKind.PARM_DECL"
  | .cxx_final_attr => "CursorKind.CXX_FINAL_ATTR"
  | .cxx_override_attr => "CursorKind.CXX_OVERRIDE_ATTR"
  | .cxx_base_specifier => "CursorKind.CXX_BASE_SPECIFIER"

/-- The `clang.cindex.TypeKind` constants that `ccindex.py` mentions. -/
inductive TypeKind where
  | typedefKind
  | elaborated
  | unexposed
  | constant_array
  | incomplete_array
  | variable_array
  | dependent_sized_array
  | pointer
  | member_pointer
  | record
  | builtin
  | otherKind
  deriving DecidableEq, Repr

/-- The `clang.cindex.TokenKind` constants. -/
inductive TokenKind where
  | keyword
  | identifier
  | literal
  | punctuation
  | commentTok
  deriving DecidableEq, Repr

/-- The `clang.cindex.ExceptionSpecificationKind` constants. -/
inductive ExceptionSpecKind where
  | noneSpec
  | dynamic_none
  | dynamic
  | ms_any
  | basic_noexcept
  | computed_noexcept
  | unevaluated
  | uninstantiated
  | unparsed
  deriving DecidableEq, Repr

/-- A source location as exposed by a cursor: file (None for built-ins),
1-based line and column. -/
structure Location where
  file : Option String
  line : Nat
  column : Nat
  deriving DecidableEq, Repr

/-! ## Formatting helpers -/

/-- `_format_location` (ccindex.py:114-117): `""` for a location with no
file, else `"file:line:col"`. -/
def _format_location (location : Location) : String :=
  match location.file with
  | none => ""
  | some f => f ++ ":" ++ toString location.line ++ ":" ++ toString location.column

/-- One pass of the per-line comment cleanup of `_format_comment`
(ccindex.py:100-103): strip a leading `/**`, a leading `/*< `, a leading
whitespace-run followed by `* `, and every `*/`. -/
def stripCommentLine (line : String) : String :=
  let line := if pyStartsWith line "/**" then pyDrop line 3 else line
  let line := if pyStartsWith line "/*< " then pyDrop line 4 else line
  let rest := String.mk (line.toList.dropWhile isPySpace)
  let line := if pyStartsWith rest "* " then pyDrop rest 2 else line
  pyReplace line "*/" ""

/-- `_format_comment` (ccindex.py:93-112): returns the cleaned comment
text and the embedded `Usage:` block; both `""` when the raw comment is
`None`. -/
def _format_comment (raw_comment : Option String) : String × String :=
  match raw_comment with
  | none => ("", "")
  | some raw =>
    let step := fun (acc : List String × Bool × List String) (line0 : String) =>
      let commentLines := acc.1
      let insideUsage := acc.2.1
      let usageLines := acc.2.2
      let line := stripCommentLine line0
      let commentLines := commentLines ++ [line]
      let insideUsage := if pyStartsWith (pyTrim line) "Usage:" then true else insideUsage
      let insideUsage := if pyStartsWith (pyTrim line) "-----" then false else insideUsage
      let usageLines :=
        if insideUsage then usageLines ++ [pyTrimLeft (pyReplace line "Usage:" "")]
        else usageLines
      (commentLines, insideUsage, usageLines)
    let res := (pySplit raw "\n").foldl step ([], false, [])
    (pyTrim (pyJoin "\n" res.1), pyJoin "\n" res.2.2)

/-- Helper for the regexes `" +\*" -> "*"` and `" +&" -> "&"` of
`_format_type_spelling`: delete every run of spaces that immediately
precedes the character `t`. -/
def squeezeSpacesBefore (t : Char) : List Char → List Char
  | [] => []
  | ' ' :: rest =>
    match squeezeSpacesBefore t rest with
    | [] => [' ']
    | c :: cs => if c = t then c :: cs else ' ' :: c :: cs
  | c :: rest => c :: squeezeSpacesBefore t rest

/-- Helper for the regex `"\> +(?=\>)" -> ">"` of `_format_type_spelling`:
delete every run of spaces between two `>`. -/
def squeezeGt : List Char → List Char
  | [] => []
  | c :: rest =>
    if c = '>' then
      let r := squeezeGt rest
      let d := r.dropWhile (fun x => x = ' ')
      if d.head? = some '>' ∧ d ≠ r then '>' :: d else '>' :: r
    else c :: squeezeGt rest

/-- `_format_type_spelling` (ccindex.py:241-249): normalize a type
spelling (`"int *" -> "int*"`, `"A<B<C> >" -> "A<B<C>>"`, ...). -/
def _format_type_spelling (type_str : String) : String :=
  if type_str = "" then type_str
  else
    let s := pyReplace type_str "std::__1::" "std::"
    let s := String.mk (squeezeSpacesBefore '*' s.toList)
    let s := String.mk (squeezeSpacesBefore '&' s.toList)
    let s := String.mk (squeezeGt s.toList)
    let s := pyReplace s " [" "["
    pyTrim s

/-- Helper for the regexes `"\*(?=[A-Za-z_])" -> "* "` and
`"\&(?=[A-Za-z_])" -> "& "` of `_format_arg_tuple_str_spelling`: insert a
space after `t` whenever a letter or underscore follows. -/
def spaceAfterChar (t : Char) : List Char → List Char
  | [] => []
  | [c] => [c]
  | c :: c2 :: rest =>
    if c = t ∧ (c2.isAlpha ∨ c2 = '_') then c :: ' ' :: c2 :: spaceAfterChar t rest
    else c :: spaceAfterChar t (c2 :: rest)

/-- First non-space character of a char list (lookahead used by
`equalsSpacingAux`). -/
def firstNonSpace (l : List Char) : Option Char :=
  (l.dropWhile (fun x => x = ' ')).head?

/-- State machine for the regex `" *\= *" -> " = "` of
`_format_arg_tuple_str_spelling`: normalize spacing around every `=`.
The flag records that we sit right after an emitted `=` and are
swallowing the following spaces. -/
def equalsSpacingAux : Bool → List Char → List Char
  | _, [] => []
  | swallow, c :: rest =>
    if c = '=' then ' ' :: '=' :: ' ' :: equalsSpacingAux true rest
    else if swallow && c = ' ' then equalsSpacingAux true rest
    else if c = ' ' && firstNonSpace rest = some '=' then equalsSpacingAux false rest
    else c :: equalsSpacingAux false rest

/-- `_format_arg_tuple_str_spelling` (ccindex.py:231-239): format the
source text of an argument declaration; raises `ValueError` on an empty
input (the Python `None` case collapses to `""` in this embedding). -/
def _format_arg_tuple_str_spelling (arg_str : String) : Except String String :=
  if arg_str = "" then .error "None or '' is passed, please file a bug"
  else
    let s := _format_type_spelling arg_str
    let s := String.mk (spaceAfterChar '*' s.toList)
    let s := String.mk (spaceAfterChar '&' s.toList)
    let s := String.mk (equalsSpacingAux false s.toList)
    .ok (pyTrim s)

/-- `_get_default_expr` (ccindex.py:276-277): the text after the last `=`
(trimmed), or `None` when there is no `=`. -/
def _get_default_expr (arg_expr : String) : Option String :=
  if (pySplit arg_expr "=").length > 1 then
    some (pyTrim ((pySplit arg_expr "=").getLastD ""))
  else none

/-- `_format_syntax_kind` (ccindex.py:181-184): normalized lowercase
syntax-kind tag of a cursor kind. -/
def _format_syntax_kind (kind : CursorKind) : String :=
  let kind_str := pyReplace (pyLower ((pySplit (kindPyStr kind) ".").getLastD "")) "cxx_" ""
  pyReplace (pyReplace kind_str "_decl" "_declaration") "var_" "variable_"

theorem syntax_kind_sample : _format_syntax_kind .cxx_method = "method" := by decide

theorem comment_sample :
    _format_comment (some "/** hi */") = ("hi", "") := by decide

/-! ## Alias-resolution chains over the declaration graph

`_get_type_alias_chain` (ccindex.py:257-268) repeatedly resolves
"declaration -> underlying typedef type".  The front end's lookup is a
graph walk keyed, for the purposes of the loop's own cycle check, by type
spellings; it is embedded as an *alias environment*
`env : String → Option String`:
* `env s = none` models `get_declaration().kind == NO_DECL_FOUND` for the
  type spelled `s`;
* `env s = some u` models that the declaration of the type spelled `s`
  has an `underlying_typedef_type` spelled `u` (with `u = ""` for an
  invalid/absent underlying type, whose spelling is falsy in Python).

The Python loop is `while True:`; the embedding adds explicit fuel, and
`none` means the loop has not finished within that fuel. -/

/-- The loop body of `_get_type_alias_chain`, carrying the chain built so
far exactly as the source does (`chain[-1]` is `chain.getLast?`). -/
def aliasChainStep (env : String → Option String) :
    Nat → String → List String → Option (List String)
  | 0, _, _ => none
  | fuel + 1, cur, chain =>
    match env cur with
    | none => some chain
    | some u =>
      if u ≠ "" ∧ chain.getLast? ≠ some u then
        aliasChainStep env fuel u (chain ++ [u])
      else some chain

/-- `_get_type_alias_chain` (ccindex.py:257-268) over an alias
environment: the chain starts as `[ type_obj ]` and the loop appends the
next underlying spelling until no declaration is found, the next spelling
is empty, or the next spelling equals the chain's last element. -/
def _get_type_alias_chain (env : String → Option String) (t : String)
    (fuel : Nat) : Option (List String) :=
  aliasChainStep env fuel t [t]

/-- Chain-free reformulation of the loop: the suffix appended after the
current spelling.  Because the loop only ever compares the candidate
against the chain's *last* element, and that last element is always the
current spelling, the loop's behaviour depends only on the current
spelling. -/
def chainSuffix (env : String → Option String) : Nat → String → Option (List String)
  | 0, _ => none
  | fuel + 1, cur =>
    match env cur with
    | none => some []
    | some u =>
      if u ≠ "" ∧ u ≠ cur then (chainSuffix env fuel u).map (fun l => u :: l)
      else some []

theorem aliasChainStep_eq_suffix (env : String → Option String) :
    ∀ (fuel : Nat) (cur : String) (chain : List String),
      chain.getLast? = some cur →
      aliasChainStep env fuel cur chain
        = (chainSuffix env fuel cur).map (fun l => chain ++ l) := by
  intro fuel
  induction fuel with
  | zero => intro cur chain _; rfl
  | succ n ih =>
    intro cur chain hlast
    cases henv : env cur with
    | none => simp [aliasChainStep, chainSuffix, henv]
    | some u =>
      simp only [aliasChainStep, chainSuffix, henv]
      by_cases hu : u ≠ "" ∧ u ≠ cur
      · have hcond : u ≠ "" ∧ chain.getLast? ≠ some u := by
          refine ⟨hu.1, ?_⟩
          rw [hlast]
          intro h
          exact hu.2 (Option.some.inj h).symm
        rw [if_pos hcond, if_pos hu, ih u (chain ++ [u]) (List.getLast?_concat _),
          Option.map_map]
        congr 1
        funext l
        simp
      · have hcond : ¬(u ≠ "" ∧ chain.getLast? ≠ some u) := by
          rw [hlast]
          rintro ⟨h1, h2⟩
          exact hu ⟨h1, fun he => h2 (by rw [he])⟩
        rw [if_neg hcond, if_neg hu]
        simp

theorem get_type_alias_chain_eq_suffix (env : String → Option String)
    (t : String) (fuel : Nat) :
    _get_type_alias_chain env t fuel
      = (chainSuffix env fuel t).map (fun l => t :: l) := by
  have h := aliasChainStep_eq_suffix env fuel t [t] rfl
  rw [_get_type_alias_chain, h]
  congr 1

theorem chainSuffix_mono (env : String → Option String) :
    ∀ (n m : Nat) (cur : String) (l : List String),
      chainSuffix env n cur = some l → n ≤ m → chainSuffix env m cur = some l := by
  intro n
  induction n with
  | zero => intro m cur l h; simp [chainSuffix] at h
  | succ n ih =>
    intro m cur l h hnm
    obtain ⟨m', rfl⟩ : ∃ m', m = m' + 1 := ⟨m - 1, by omega⟩
    cases henv : env cur with
    | none =>
      simp only [chainSuffix, henv] at h ⊢
      exact h
    | some u =>
      simp only [chainSuffix, henv] at h ⊢
      by_cases hu : u ≠ "" ∧ u ≠ cur
      · rw [if_pos hu] at h ⊢
        obtain ⟨l', hl', rfl⟩ := Option.map_eq_some'.mp h
        rw [ih m' u l' hl' (by omega)]
        rfl
      · rw [if_neg hu] at h ⊢
        exact h

theorem chainSuffix_len (env : String → Option String) :
    ∀ (n : Nat) (cur : String) (l : List String),
      chainSuffix env n cur = some l → l.length < n := by
  intro n
  induction n with
  | zero => intro cur l h; simp [chainSuffix] at h
  | succ n ih =>
    intro cur l h
    cases henv : env cur with
    | none =>
      simp only [chainSuffix, henv] at h
      cases h
      simp
    | some u =>
      simp only [chainSuffix, henv] at h
      by_cases hu : u ≠ "" ∧ u ≠ cur
      · rw [if_pos hu] at h
        obtain ⟨l', hl', rfl⟩ := Option.map_eq_some'.mp h
        have := ih u l' hl'
        simp
        omega
      · rw [if_neg hu] at h
        cases h
        simp

theorem chainSuffix_min (env : String → Option String) :
    ∀ (n : Nat) (cur : String) (l : List String),
      chainSuffix env n cur = some l → chainSuffix env (l.length + 1) cur = some l := by
  intro n
  induction n with
  | zero => intro cur l h; simp [chainSuffix] at h
  | succ n ih =>
    intro cur l h
    cases henv : env cur with
    | none =>
      simp only [chainSuffix, henv] at h ⊢
      exact h
    | some u =>
      simp only [chainSuffix, henv] at h ⊢
      by_cases hu : u ≠ "" ∧ u ≠ cur
      · rw [if_pos hu] at h ⊢
        obtain ⟨l', hl', rfl⟩ := Option.map_eq_some'.mp h
        have hmin := ih u l' hl'
        have : chainSuffix env (u :: l').length u = some l' := by
          simpa using chainSuffix_mono env (l'.length + 1) (u :: l').length u l' hmin (by simp)
        rw [this]
        rfl
      · rw [if_neg hu] at h ⊢
        exact h

theorem chainSuffix_sub (env : String → Option String) :
    ∀ (n : Nat) (cur : String) (l : List String),
      chainSuffix env n cur = some l →
      ∀ (l1 : List String) (u : String) (l2 : List String), l = l1 ++ u :: l2 →
        ∃ m, m < n ∧ chainSuffix env m u = some l2 := by
  intro n
  induction n with
  | zero => intro cur l h; simp [chainSuffix] at h
  | succ n ih =>
    intro cur l h l1 u l2 hsplit
    cases henv : env cur with
    | none =>
      simp only [chainSuffix, henv] at h
      cases h
      simp at hsplit
    | some u0 =>
      simp only [chainSuffix, henv] at h
      by_cases hu : u0 ≠ "" ∧ u0 ≠ cur
      · rw [if_pos hu] at h
        obtain ⟨l', hl', hl⟩ := Option.map_eq_some'.mp h
        subst hsplit
        cases l1 with
        | nil =>
          simp at hl
          obtain ⟨rfl, rfl⟩ := hl
          exact ⟨n, by omega, hl'⟩
        | cons a l1' =>
          simp at hl
          obtain ⟨rfl, rfl⟩ := hl
          obtain ⟨m, hm, hrun⟩ := ih u0 _ hl' l1' u l2 rfl
          exact ⟨m, by omega, hrun⟩
      · rw [if_neg hu] at h
        cases h
        simp at hsplit

theorem chainSuffix_nodup (env : String → Option String) :
    ∀ (n : Nat) (cur : String) (l : List String),
      chainSuffix env n cur = some l → (cur :: l).Nodup := by
  intro n
  induction n with
  | zero => intro cur l h; simp [chainSuffix] at h
  | succ n ih =>
    intro cur l h
    have horig := h
    cases henv : env cur with
    | none =>
      simp only [chainSuffix, henv] at h
      cases h
      simp
    | some u =>
      simp only [chainSuffix, henv] at h
      by_cases hu : u ≠ "" ∧ u ≠ cur
      · rw [if_pos hu] at h
        obtain ⟨l', hl', rfl⟩ := Option.map_eq_some'.mp h
        have hnd := ih u l' hl'
        have hcur_notin : cur ∉ u :: l' := by
          intro hmem
          rcases List.mem_cons.mp hmem with hcu | hmem'
          · exact hu.2 hcu.symm
          · obtain ⟨s, t, hst⟩ := List.append_of_mem hmem'
            obtain ⟨m, hm, hrun⟩ := chainSuffix_sub env n u l' hl' s cur t hst
            have h1 : chainSuffix env (n + 1) cur = some t :=
              chainSuffix_mono env m (n + 1) cur t hrun (by omega)
            rw [horig] at h1
            have : u :: l' = t := Option.some.inj h1
            rw [hst] at this
            have hlen := congrArg List.length this
            simp at hlen
            omega
        exact List.nodup_cons.mpr ⟨hcur_notin, hnd⟩
      · rw [if_neg hu] at h
        cases h
        simp

/-- An alias environment with a transitive (length-2) alias cycle:
the type spelled `"A"` resolves to `"B"` and `"B"` back to `"A"`. -/
def cyclicAliasEnv : String → Option String :=
  fun s => if s = "A" then some "B" else if s = "B" then some "A" else none

/-- An acyclic alias environment: `MyInt2 -> MyInt -> int`, and `int` has
no declaration (the spec's own example scenario). -/
def acyclicAliasEnv : String → Option String :=
  fun s => if s = "MyInt2" then some "MyInt" else if s = "MyInt" then some "int" else none

/-- C1, counterexample.  Over the two-spelling cycle `"A" -> "B" -> "A"`
(two distinct alias layers), `_get_type_alias_chain` has not terminated
after 10 iterations: the equality check against the chain's *last*
element never fires on a transitive cycle, so the loop is infinite,
contradicting the claimed bound for a typedef that transitively aliases
itself. -/
theorem ccindex_C1_counterexample :
    _get_type_alias_chain cyclicAliasEnv "A" 10 = none := by decide

/-- C1, amended.  Whenever the chain construction of
`_get_type_alias_chain` terminates, the chain starts at the given type,
never records the same spelling twice, and a fuel budget equal to the
number of recorded alias layers (`chain.length`) already suffices; the
last-element equality check cuts a *direct* self-alias, and for a
transitive alias cycle the loop does not terminate
(`ccindex_C1_counterexample`). -/
theorem ccindex_C1 (env : String → Option String) (t : String) (n : Nat)
    (chain : List String) (h : _get_type_alias_chain env t n = some chain) :
    chain.head? = some t ∧ chain.Nodup ∧ chain.length ≤ n ∧
      _get_type_alias_chain env t chain.length = some chain := by
  rw [get_type_alias_chain_eq_suffix] at h
  obtain ⟨l, hl, rfl⟩ := Option.map_eq_some'.mp h
  refine ⟨rfl, chainSuffix_nodup env n t l hl, ?_, ?_⟩
  · have := chainSuffix_len env n t l hl
    simp
    omega
  · rw [get_type_alias_chain_eq_suffix]
    have hm := chainSuffix_min env n t l hl
    have hrun : chainSuffix env (t :: l).length t = some l := by
      simpa using hm
    rw [hrun]
    rfl

/-- C1, witness: the amended theorem applied to the acyclic environment
`MyInt2 -> MyInt -> int` with fuel 5. -/
theorem ccindex_C1_witness :
    (["MyInt2", "MyInt", "int"] : List String).head? = some "MyInt2" ∧
    (["MyInt2", "MyInt", "int"] : List String).Nodup ∧
    (["MyInt2", "MyInt", "int"] : List String).length ≤ 5 ∧
    _get_type_alias_chain acyclicAliasEnv "MyInt2"
      (["MyInt2", "MyInt", "int"] : List String).length
      = some ["MyInt2", "MyInt", "int"] :=
  ccindex_C1 acyclicAliasEnv "MyInt2" 5 ["MyInt2", "MyInt", "int"] (by decide)

/-! ## The clang `Type` interface

A `CType` carries exactly the attributes `_collect_type_info` and its
helpers query: kind, spelling, `get_size()`, `get_array_size()`,
`is_pod()`, the declaration's kind/location/`enum_type`, and the
sub-types reachable through `get_canonical()`,
`get_declaration().underlying_typedef_type`, `get_array_element_type()`
and `get_pointee()`.  A `none` sub-type models an invalid `Type` object
(clang's null type, whose spelling is `""`), or an absent one; branches
where the source would crash on such a value return `Except.error`. -/

inductive CType where
  | mk (kind : TypeKind) (spelling : String) (sizeVal : Int) (arraySizeVal : Int)
       (pod : Bool) (declKind : CursorKind) (declLocation : Location)
       (declEnumType : Option CType) (canonical : Option CType)
       (underlying : Option CType) (element : Option CType) (pointee : Option CType)

def CType.kind : CType → TypeKind
  | .mk k _ _ _ _ _ _ _ _ _ _ _ => k

def CType.spelling : CType → String
  | .mk _ sp _ _ _ _ _ _ _ _ _ _ => sp

/-- `type_obj.get_size()` (may be a non-positive sentinel). -/
def CType.sizeVal : CType → Int
  | .mk _ _ sz _ _ _ _ _ _ _ _ _ => sz

/-- `type_obj.get_array_size()` (may be a non-positive sentinel). -/
def CType.arraySizeVal : CType → Int
  | .mk _ _ _ asz _ _ _ _ _ _ _ _ => asz

/-- `type_obj.is_pod()`. -/
def CType.pod : CType → Bool
  | .mk _ _ _ _ p _ _ _ _ _ _ _ => p

/-- `type_obj.get_declaration().kind` (`no_decl_found` when there is no
declaration). -/
def CType.declKind : CType → CursorKind
  | .mk _ _ _ _ _ dk _ _ _ _ _ _ => dk

/-- `type_obj.get_declaration().location`. -/
def CType.declLocation : CType → Location
  | .mk _ _ _ _ _ _ dl _ _ _ _ _ => dl

/-- `type_obj.get_declaration().enum_type` (for enum declarations). -/
def CType.declEnumType : CType → Option CType
  | .mk _ _ _ _ _ _ _ det _ _ _ _ => det

/-- `type_obj.get_canonical()`. -/
def CType.canonical : CType → Option CType
  | .mk _ _ _ _ _ _ _ _ c _ _ _ => c

/-- `type_obj.get_declaration().underlying_typedef_type`. -/
def CType.underlying : CType → Option CType
  | .mk _ _ _ _ _ _ _ _ _ u _ _ => u

/-- `type_obj.get_array_element_type()`. -/
def CType.element : CType → Option CType
  | .mk _ _ _ _ _ _ _ _ _ _ e _ => e

/-- `type_obj.get_pointee()`. -/
def CType.pointee : CType → Option CType
  | .mk _ _ _ _ _ _ _ _ _ _ _ p => p

/-- `_format_type` (ccindex.py:251-255). -/
def _format_type (type_obj : CType) : String :=
  if pyStartsWith type_obj.spelling "type-parameter-" then "(type_parameter)"
  else _format_type_spelling type_obj.spelling

/-- `_format_sizeof_type` (ccindex.py:464-467): `None` when `get_size()`
returns a non-positive sentinel. -/
def _format_sizeof_type (type_obj : CType) : Option Int :=
  if type_obj.sizeVal > 0 then some type_obj.sizeVal else none

/-- Embed an `int or NoneType` Python value. -/
def optIntValue : Option Int → Value
  | some n => .vInt n
  | none => .vNone

/-- Embed a `str or NoneType` Python value. -/
def optStrValue : Option String → Value
  | some s => .vStr s
  | none => .vNone

/-- The loop of `_get_type_alias_chain` (ccindex.py:257-268) walking the
value tree of one `CType` (the part of the declaration graph reachable
from a concrete, finite type value; `ccindex_C1` treats the same loop
over an arbitrary declaration graph).  Returns the elements appended
after the head. -/
def aliasChainTreeRest : CType → List CType
  | .mk _ sp _ _ _ dk _ _ _ und _ _ =>
    if dk = .no_decl_found then []
    else
      match und with
      | none => []
      | some ut =>
        if ut.spelling ≠ "" ∧ sp ≠ ut.spelling then ut :: aliasChainTreeRest ut
        else []

/-- `_get_type_alias_chain` on a `CType` value: the chain starts with the
type itself. -/
def aliasChainTree (type_obj : CType) : List CType :=
  type_obj :: aliasChainTreeRest type_obj

/-- `_format_type_alias_chain` (ccindex.py:269-274). -/
def _format_type_alias_chain (type_obj : CType) : List Value :=
  (aliasChainTree type_obj).map (fun item =>
    .vDict [(.spelling, .vStr (_format_type_spelling item.spelling)),
            (.location, .vStr (_format_location item.declLocation))])

/-- `_find_hierarchy_item_for_owning_template` (ccindex.py:186-190):
the `template_level`-th hierarchy entry whose kind tag mentions
"template". -/
def _find_hierarchy_item_for_owning_template
    (hierarchy : List (List (Key × Value))) (template_level : Nat) :
    Option (List (Key × Value)) :=
  let template_hierarchy_list := hierarchy.filter (fun item =>
    match getKey item .kind with
    | some (.vStr s) => pyContains s "template"
    | _ => false)
  if template_level ≥ template_hierarchy_list.length then none
  else template_hierarchy_list[template_level]?

/-- `_format_type_param_decl_location` (ccindex.py:191-227).  The caller
passes the type's own spelling and its canonical spelling (the source
reads both off the `type_obj`), the enclosing hierarchy, and the
semantic parent's spelling/location of the cursor argument `c`
(`none` models `c = None`, on which the fallback path would crash). -/
def _format_type_param_decl_location (typeSpelling canonicalSpelling : String)
    (context_hierarchy : List (List (Key × Value)))
    (fallback : Option (String × Location)) : Except String Value :=
  if ¬ pyStartsWith canonicalSpelling "type-parameter-" then
    .error ("not a type parameter: '" ++ typeSpelling ++ "', please file a bug")
  else
    let pieces := pySplit canonicalSpelling "-"
    match pieces.drop (pieces.length - 2) with
    | [lvlStr, posStr] =>
      match pyToNat lvlStr, pyToNat posStr with
      | some owning_template_level, some template_param_pos =>
        (match _find_hierarchy_item_for_owning_template context_hierarchy
            owning_template_level with
        | some item =>
          (match dictGetE item .spelling, dictGetE item .location with
          | .ok vsp, .ok vloc =>
            .ok (.vDict [(.template_spelling, vsp),
                         (.template_location, vloc),
                         (.param_index, .vInt template_param_pos)])
          | .error e, _ => .error e
          | _, .error e => .error e)
        | none =>
          -- the type param sits on the header of the current declaration's
          -- own template: fall back to the semantic parent of the cursor
          (match fallback with
          | none => .error "AttributeError: 'NoneType' has no attribute 'semantic_parent'"
          | some sp =>
            .ok (.vDict [(.template_spelling, .vStr (_format_type_spelling sp.1)),
                         (.template_location, .vStr (_format_location sp.2)),
                         (.param_index, .vInt template_param_pos)])))
      | _, _ => .error "invalid literal for int() with base 10"
    | _ => .error "ValueError: not enough values to unpack"

/-- `array_TypeKind` (ccindex.py:501-510). -/
def array_TypeKind : List TypeKind :=
  [.constant_array, .incomplete_array, .variable_array, .dependent_sized_array]

/-- `pointer_TypeKind` (ccindex.py:512-515). -/
def pointer_TypeKind : List TypeKind :=
  [.pointer, .member_pointer]

/-- `_collect_type_info` (ccindex.py:519-618): the recursive Type
Descriptor.  Returns the dict `{ spelling, type_info }`; `Except.error`
models an uncaught Python exception (the `ValueError` of
`_format_type_param_decl_location`, or a crash on an invalid sub-type
that a well-formed front end never produces). -/
def _collect_type_info (c_type : CType)
    (context_hierarchy : List (List (Key × Value)))
    (fallback : Option (String × Location)) : Except String Value :=
  match c_type with
  | .mk tk sp sz asz pod dk dl det canon und elem ptee =>
    let self := CType.mk tk sp sz asz pod dk dl det canon und elem ptee
    let type_spelling := _format_type self
    let sizeof_type := _format_sizeof_type self
    if tk = .typedefKind ∨ tk = .elaborated then
      match canon with
      | none => .error "invalid canonical type (model)"
      | some canonical_type =>
        (_collect_type_info canonical_type context_hierarchy fallback).map
          (fun canonical_info =>
            .vDict [(.spelling, .vStr type_spelling),
              (.type_info, .vDict [
                (.type_size, optIntValue sizeof_type),
                (.is_type_alias, .vBool true),
                (.is_type_param, .vBool false),
                (.is_array, .vBool false),
                (.is_pointer, .vBool false),
                (.is_function, .vBool false),
                (.type_alias_underlying_type, .vStr
                  (match und with
                   | none => ""
                   | some u => _format_type u)),
                (.type_alias_chain, .vList (_format_type_alias_chain self)),
                (.canonical_type, canonical_info)])])
    else if tk = .unexposed then
      if pyEndsWith type_spelling ")" then
        .ok (.vDict [(.spelling, .vStr type_spelling),
          (.type_info, .vDict [
            (.type_size, .vNone),
            (.is_type_alias, .vBool false),
            (.is_type_param, .vBool false),
            (.is_array, .vBool false),
            (.is_pointer, .vBool false),
            (.is_function, .vBool true)])])
      else
        match canon with
        | none => .error "invalid canonical type (model)"
        | some canonical_type =>
          (_format_type_param_decl_location sp canonical_type.spelling
              context_hierarchy fallback).map
            (fun loc_info =>
              .vDict [(.spelling, .vStr type_spelling),
                (.type_info, .vDict [
                  (.type_size, optIntValue sizeof_type),
                  (.is_type_alias, .vBool false),
                  (.is_type_param, .vBool true),
                  (.is_array, .vBool false),
                  (.is_pointer, .vBool false),
                  (.is_function, .vBool false),
                  (.type_param_decl_location, loc_info)])])
    else if tk ∈ array_TypeKind then
      match elem with
      | none => .error "invalid array element type (model)"
      | some element_type =>
        (_collect_type_info element_type context_hierarchy fallback).map
          (fun elem_info =>
            .vDict [(.spelling, .vStr type_spelling),
              (.type_info, .vDict [
                (.type_size, optIntValue sizeof_type),
                (.is_type_alias, .vBool false),
                (.is_type_param, .vBool false),
                (.is_array, .vBool true),
                (.is_pointer, .vBool false),
                (.is_function, .vBool false),
                (.array_size, if asz > 0 then .vInt asz else .vNone),
                (.array_element_type, elem_info)])])
    else if tk ∈ pointer_TypeKind then
      match ptee with
      | none => .error "invalid pointee type (model)"
      | some pointee_type =>
        (_collect_type_info pointee_type context_hierarchy fallback).map
          (fun ptee_info =>
            .vDict [(.spelling, .vStr type_spelling),
              (.type_info, .vDict [
                (.type_size, optIntValue sizeof_type),
                (.is_type_alias, .vBool false),
                (.is_type_param, .vBool false),
                (.is_array, .vBool false),
                (.is_pointer, .vBool true),
                (.is_function, .vBool false),
                (.pointee_type, ptee_info)])])
    else
      .ok (.vDict [(.spelling, .vStr type_spelling),
        (.type_info, .vDict [
          (.type_size, optIntValue sizeof_type),
          (.is_type_alias, .vBool false),
          (.is_type_param, .vBool false),
          (.is_array, .vBool false),
          (.is_pointer, .vBool false)])])

/-- C5.  If a type classified as a dependent type parameter (kind
`UNEXPOSED`, spelling not ending in `")"`) has a canonical spelling that
does not start with `"type-parameter-"`, then `_collect_type_info`
raises the `ValueError` of `_format_type_param_decl_location`
immediately: no descriptor is returned and nothing is substituted. -/
theorem ccindex_C5 (sp : String) (sz asz : Int) (pod : Bool) (dk : CursorKind)
    (dl : Location) (det : Option CType) (canonical_type : CType)
    (und elem ptee : Option CType)
    (hierarchy : List (List (Key × Value))) (fallback : Option (String × Location))
    (hfn : pyEndsWith
      (_format_type (CType.mk .unexposed sp sz asz pod dk dl det
        (some canonical_type) und elem ptee)) ")" = false)
    (hpat : pyStartsWith canonical_type.spelling "type-parameter-" = false) :
    _collect_type_info
        (CType.mk .unexposed sp sz asz pod dk dl det (some canonical_type) und elem ptee)
        hierarchy fallback
      = .error ("not a type parameter: '" ++ sp ++ "', please file a bug") := by
  have herr : _format_type_param_decl_location sp canonical_type.spelling
      hierarchy fallback
      = .error ("not a type parameter: '" ++ sp ++ "', please file a bug") := by
    unfold _format_type_param_decl_location
    rw [if_pos (by simp [hpat])]
  rw [_collect_type_info.eq_def]
  dsimp only
  rw [if_neg (by simp), if_pos rfl, if_neg (by simp [hfn]), herr]
  rfl

/-- A canonical type spelled `"int"`: not a `type-parameter-X-Y`. -/
def intBuiltinType : CType :=
  CType.mk .builtin "int" 4 (-1) true .no_decl_found ⟨none, 0, 0⟩ none none none none none

/-- A malformed dependent type parameter: kind `UNEXPOSED`, spelled
`"T"`, whose canonical spelling is `"int"`. -/
def badTypeParam : CType :=
  CType.mk .unexposed "T" (-2) (-1) false .no_decl_found ⟨none, 0, 0⟩ none
    (some intBuiltinType) none none none

/-- C5, witness: the guard fires on `badTypeParam`. -/
theorem ccindex_C5_witness :
    _collect_type_info badTypeParam [] none
      = .error ("not a type parameter: '" ++ "T" ++ "', please file a bug") :=
  ccindex_C5 "T" (-2) (-1) false .no_decl_found ⟨none, 0, 0⟩ none intBuiltinType
    none none none [] none (by decide) (by decide)

/-! ## The clang `Cursor` interface -/

/-- One token of a cursor's token stream (`cursor.get_tokens()`). -/
structure Token where
  kind : TokenKind
  spelling : String
  deriving DecidableEq, Repr

/-- One semantic ancestor of a cursor, carrying the attributes
`_collect_hierarchy` reads at each level. -/
structure Ancestor where
  kind : CursorKind
  spelling : String
  typeSpelling : String
  location : Location
  scopedEnum : Bool
  deriving DecidableEq, Repr

/-- One child of a cursor (`cursor.get_children()`), carrying the
attributes `_format_func_proto`/`_format_class_proto` read:
`extentText` is `_get_text_range(c.extent)` (the embedding treats the
file-system read of the child's source extent as an attribute of the
node), `defLocation` is `c.get_definition().location`, and
`spSpelling`/`spLocation` belong to `c.semantic_parent`. -/
structure Child where
  kind : CursorKind
  spelling : String
  extentText : String
  type : CType
  tokens : List Token
  defLocation : Location
  spSpelling : String
  spLocation : Location

/-- A cursor, carrying exactly the attributes `_visit_cursor` and its
helpers query.  `ancestors` is the semantic-parent chain starting at the
immediate parent; a chain ending before a `translation_unit` entry models
reaching the translation-unit root. -/
structure Cursor where
  kind : CursorKind
  spelling : String
  displayname : String
  location : Location
  rawComment : Option String
  extentText : String
  type : CType
  resultType : CType
  underlyingTypedefType : Option CType
  enumType : Option CType
  enumValue : Int
  children : List Child
  tokens : List Token
  ancestors : List Ancestor
  accessSpecifierStr : String
  isConstMethod : Bool
  isVirtualMethod : Bool
  isPureVirtualMethod : Bool
  isStaticMethod : Bool
  isDefaultMethod : Bool
  isAbstractRecord : Bool
  isDefaultConstructor : Bool
  isCopyConstructor : Bool
  isMoveConstructor : Bool
  isConvertingConstructor : Bool
  isScopedEnum : Bool
  exceptionSpecKind : ExceptionSpecKind

/-- `cursor.semantic_parent.kind`: the head of the ancestor chain, or the
translation unit when the chain is empty. -/
def Cursor.semanticParentKind (c : Cursor) : CursorKind :=
  match c.ancestors.head? with
  | none => .translation_unit
  | some a => a.kind

/-- `cursor.semantic_parent.spelling` (only read on the type-parameter
fallback path; `""` for the translation unit). -/
def Cursor.semanticParentSpelling (c : Cursor) : String :=
  match c.ancestors.head? with
  | none => ""
  | some a => a.spelling

/-- `cursor.semantic_parent.location` (only read on the type-parameter
fallback path). -/
def Cursor.semanticParentLocation (c : Cursor) : Location :=
  match c.ancestors.head? with
  | none => ⟨none, 0, 0⟩
  | some a => a.location

/-- `_is_transparent_decl` (ccindex.py:144-145): a non-scoped enum. -/
def _is_transparent_decl (cursor : Ancestor) : Bool :=
  decide (cursor.kind = .enum_decl) && !cursor.scopedEnum

/-- The while-loop of `_collect_hierarchy` (ccindex.py:157-169): walk
the ancestor chain up to (excluding) the translation unit. -/
def hierarchyLevels : List Ancestor → List Ancestor
  | [] => []
  | a :: rest => if a.kind = .translation_unit then [] else a :: hierarchyLevels rest

/-- One hierarchy entry (ccindex.py:161-178): effective spelling (the
type's unqualified name when the node is anonymous), transparency,
syntax kind, location. -/
def hierarchyLevelDict (a : Ancestor) : List (Key × Value) :=
  let sp0 := _format_type_spelling a.spelling
  let sp :=
    if sp0 = "" then (pySplit (_format_type_spelling a.typeSpelling) "::").getLastD ""
    else sp0
  [(.spelling, .vStr sp),
   (.transparent, .vBool (_is_transparent_decl a)),
   (.kind, .vStr (_format_syntax_kind a.kind)),
   (.location, .vStr (_format_location a.location))]

/-- `_collect_hierarchy` (ccindex.py:147-179): the ordered top-down
enclosing-scope list plus the immediate parent's kind tag; an empty list
with `"(global)"` when the semantic parent is the translation unit.  The
source's bottom-up `insert(0, ...)` construction makes the final list
the reverse of the visit order, and `syntax_kind_list[-1]` is the first
visited (immediate) ancestor. -/
def _collect_hierarchy (c : Cursor) : List (List (Key × Value)) × String :=
  match c.ancestors with
  | [] => ([], "(global)")
  | a :: rest =>
    if a.kind = .translation_unit then ([], "(global)")
    else
      let levels := a :: hierarchyLevels rest
      (levels.reverse.map hierarchyLevelDict, _format_syntax_kind a.kind)

/-- `is_deleted_method` (ccindex.py:455-462): scan the declaration's
token stream for the keyword `delete` (documented front-end capability
gap). -/
def is_deleted_method (cursor : Cursor) : Bool :=
  cursor.tokens.any (fun t => decide (t.kind = .keyword) && decide (t.spelling = "delete"))

/-- `interested_CursorKinds` (ccindex.py:69-87). -/
def interested_CursorKinds : List CursorKind :=
  [.namespaceKind, .constructor, .destructor, .cxx_method, .conversion_function,
   .function_template, .class_template, .enum_decl, .enum_constant_decl,
   .field_decl, .class_decl, .struct_decl, .function_decl, .var_decl,
   .typedef_decl, .type_alias_decl]

/-- `func_like_CursorKind` (ccindex.py:472-479). -/
def func_like_CursorKind : List CursorKind :=
  [.function_decl, .function_template, .conversion_function, .constructor,
   .destructor, .cxx_method]

/-- `method_like_CursorKind` (ccindex.py:481-487); `FUNCTION_TEMPLATE`
is deliberately absent and handled by a semantic-parent check. -/
def method_like_CursorKind : List CursorKind :=
  [.cxx_method, .conversion_function, .constructor, .destructor]

/-- `class_like_CursorKind` (ccindex.py:489-493). -/
def class_like_CursorKind : List CursorKind :=
  [.class_decl, .struct_decl, .class_template]

/-- `val_like_CursorKind` (ccindex.py:495-499). -/
def val_like_CursorKind : List CursorKind :=
  [.var_decl, .field_decl, .enum_constant_decl]

/-- `no_return_funcs_CursorKindCursorKind` (ccindex.py:279-282). -/
def no_return_funcs_CursorKindCursorKind : List CursorKind :=
  [.constructor, .destructor]

/-- `noexcept_ExceptionSpecificationKind` (ccindex.py:283-286). -/
def noexcept_ExceptionSpecificationKind : List ExceptionSpecKind :=
  [.dynamic_none, .basic_noexcept]

/-- Extract the string stored at `k` of a dict value (`v[k]` where the
value is known by construction to be a string). -/
def vDictGetStr (v : Value) (k : Key) : Except String String :=
  match v with
  | .vDict d =>
    match getKey d k with
    | some (.vStr s) => .ok s
    | some _ => .error "TypeError"
    | none => .error "KeyError"
  | _ => .error "TypeError"

/-- Result of `_format_func_proto`: the tuple of ccindex.py:384-388. -/
structure FuncProtoResult where
  protoStr : String
  protoStrPretty : String
  templateParams : List Value
  args : List Value
  returnType : Option Value
  isFinal : Bool
  isOverride : Bool
  isPureVirtual : Bool
  isNoThrow : Option Bool

/-- Accumulator of the child loop of `_format_func_proto`
(ccindex.py:288-328). -/
structure FPAcc where
  templateParams : List Value
  templateParamsRepr : List String
  args : List Value
  argsRepr : List String
  isFinal : Bool
  isOverride : Bool

/-- The child loop of `_format_func_proto` (ccindex.py:298-328). -/
def collectFuncChildren (context_hierarchy : List (List (Key × Value))) :
    List Child → FPAcc → Except String FPAcc
  | [], acc => .ok acc
  | ch :: rest, acc =>
    if ch.kind = .template_type_parameter then do
      let template_param_text ←
        _format_arg_tuple_str_spelling (pyReplace ch.extentText "class " "typename ")
      let ti ← _collect_type_info ch.type context_hierarchy
        (some (ch.spSpelling, ch.spLocation))
      collectFuncChildren context_hierarchy rest
        { acc with
          templateParams := acc.templateParams ++
            [Value.vDict [(.type, ti), (.arg_spelling, .vStr ch.spelling),
              (.default_expr, optStrValue (_get_default_expr template_param_text))]],
          templateParamsRepr := acc.templateParamsRepr ++ [template_param_text] }
    else if ch.kind = .template_non_type_parameter then do
      let template_param_text ← _format_arg_tuple_str_spelling ch.extentText
      let ti ← _collect_type_info ch.type context_hierarchy
        (some (ch.spSpelling, ch.spLocation))
      collectFuncChildren context_hierarchy rest
        { acc with
          templateParams := acc.templateParams ++
            [Value.vDict [(.type, ti), (.arg_spelling, .vStr ch.spelling),
              (.default_expr, optStrValue (_get_default_expr template_param_text))]],
          templateParamsRepr := acc.templateParamsRepr ++ [template_param_text] }
    else if ch.kind = .parm_decl then do
      let args_text ← _format_arg_tuple_str_spelling ch.extentText
      let ti ← _collect_type_info ch.type context_hierarchy
        (some (ch.spSpelling, ch.spLocation))
      collectFuncChildren context_hierarchy rest
        { acc with
          args := acc.args ++
            [Value.vDict [(.type, ti), (.arg_spelling, .vStr ch.spelling),
              (.default_expr, optStrValue (_get_default_expr args_text))]],
          argsRepr := acc.argsRepr ++ [args_text] }
    else if ch.kind = .cxx_final_attr then
      collectFuncChildren context_hierarchy rest { acc with isFinal := true }
    else if ch.kind = .cxx_override_attr then
      collectFuncChildren context_hierarchy rest { acc with isOverride := true }
    else
      collectFuncChildren context_hierarchy rest acc

/-- `_format_func_proto` (ccindex.py:287-388). -/
def _format_func_proto (cursor : Cursor)
    (context_hierarchy : List (List (Key × Value))) :
    Except String FuncProtoResult := do
  let acc ← collectFuncChildren context_hierarchy cursor.children
    ⟨[], [], [], [], false, false⟩
  let template_header :=
    if acc.templateParams.isEmpty then ""
    else "template <" ++ pyJoin ", " acc.templateParamsRepr ++ ">"
  let return_type ←
    if cursor.kind ∈ no_return_funcs_CursorKindCursorKind then pure none
    else do
      let rt ← _collect_type_info cursor.resultType [] none
      pure (some rt)
  let func_name := (pySplit cursor.displayname "(").headD ""
  let is_pure_virtual := cursor.isPureVirtualMethod
  let is_no_throw : Option Bool :=
    if cursor.exceptionSpecKind ∈ noexcept_ExceptionSpecificationKind then some true
    else if cursor.exceptionSpecKind = .unevaluated then none
    else some false
  let postfix_str := pyJoin " "
    ((if cursor.isConstMethod then ["const"] else []) ++
     (if acc.isFinal then ["final"] else []) ++
     (if acc.isOverride then ["override"] else []) ++
     (if is_pure_virtual then ["= 0"] else []) ++
     (if is_no_throw = some true then ["noexcept"] else []))
  let accumulate_proto_str ←
    match return_type with
    | some rt =>
      if cursor.kind ≠ .conversion_function then
        (vDictGetStr rt .spelling).map (fun s => s ++ " " ++ func_name)
      else pure func_name
    | none => pure func_name
  let accumulate_proto_str :=
    if cursor.isVirtualMethod then "virtual " ++ accumulate_proto_str
    else accumulate_proto_str
  let proto_str :=
    accumulate_proto_str ++ "(" ++ pyJoin ", " acc.argsRepr ++ ") " ++ postfix_str
  let proto_str_pretty :=
    if pyLen proto_str > 75 then
      accumulate_proto_str ++ "(\n" ++
        pyJoin ",\n" (acc.argsRepr.map (fun a => "\t" ++ a)) ++ "\n) " ++ postfix_str
    else proto_str
  let proto_str :=
    if template_header = "" then proto_str else template_header ++ "\n" ++ proto_str
  let proto_str_pretty :=
    if template_header = "" then proto_str_pretty
    else template_header ++ "\n" ++ proto_str_pretty
  pure
    { protoStr := pyTrim proto_str
      protoStrPretty := pyTrim proto_str_pretty
      templateParams := acc.templateParams
      args := acc.args
      returnType := return_type
      isFinal := acc.isFinal
      isOverride := acc.isOverride
      isPureVirtual := is_pure_virtual
      isNoThrow := is_no_throw }

/-- `inheritance_access_specifiers` (ccindex.py:390). -/
def inheritance_access_specifiers : List String :=
  ["public", "protected", "private"]

/-- The keyword-token scan over one base specifier
(ccindex.py:424-429): last access-specifier keyword wins, `virtual`
sets the virtual-inheritance flag. -/
def baseTokenScan : List Token → String × Bool → String × Bool
  | [], st => st
  | t :: rest, st =>
    if t.kind = .keyword then
      let accSpec := if t.spelling ∈ inheritance_access_specifiers then t.spelling else st.1
      let virt := if t.spelling = "virtual" then true else st.2
      baseTokenScan rest (accSpec, virt)
    else baseTokenScan rest st

/-- Result of `_format_class_proto` (ccindex.py:448-453). -/
structure ClassProtoResult where
  nameStr : String
  namePretty : String
  templateParams : List Value
  isFinal : Bool
  baseList : List Value

/-- Accumulator of the child loop of `_format_class_proto`. -/
structure CPAcc where
  templateParams : List Value
  templateParamsRepr : List String
  baseList : List Value
  isFinal : Bool

/-- The child loop of `_format_class_proto` (ccindex.py:396-438). -/
def collectClassChildren (context_hierarchy : List (List (Key × Value))) :
    List Child → CPAcc → Except String CPAcc
  | [], acc => .ok acc
  | ch :: rest, acc =>
    if ch.kind = .template_type_parameter then do
      let template_param_text ←
        _format_arg_tuple_str_spelling (pyReplace ch.extentText "class " "typename ")
      let ti ← _collect_type_info ch.type context_hierarchy
        (some (ch.spSpelling, ch.spLocation))
      collectClassChildren context_hierarchy rest
        { acc with
          templateParams := acc.templateParams ++
            [Value.vDict [(.type, ti), (.arg_spelling, .vStr ch.spelling),
              (.default_expr, optStrValue (_get_default_expr template_param_text))]],
          templateParamsRepr := acc.templateParamsRepr ++ [template_param_text] }
    else if ch.kind = .template_non_type_parameter then do
      let template_param_text ← _format_arg_tuple_str_spelling ch.extentText
      let ti ← _collect_type_info ch.type context_hierarchy
        (some (ch.spSpelling, ch.spLocation))
      collectClassChildren context_hierarchy rest
        { acc with
          templateParams := acc.templateParams ++
            [Value.vDict [(.type, ti), (.arg_spelling, .vStr ch.spelling),
              (.default_expr, optStrValue (_get_default_expr template_param_text))]],
          templateParamsRepr := acc.templateParamsRepr ++ [template_param_text] }
    else if ch.kind = .cxx_final_attr then
      collectClassChildren context_hierarchy rest { acc with isFinal := true }
    else if ch.kind = .cxx_base_specifier then
      let base_spelling := _format_type_spelling
        (pyReplace (pyReplace (_format_type_spelling ch.spelling) "class " "") "struct " "")
      let scan := baseTokenScan ch.tokens ("public", false)
      collectClassChildren context_hierarchy rest
        { acc with
          baseList := acc.baseList ++
            [Value.vDict [(.access, .vStr scan.1),
              (.virtual_inheritance, .vBool scan.2),
              (.spelling, .vStr base_spelling),
              (.definition_location, .vStr (_format_location ch.defLocation))]] }
    else
      collectClassChildren context_hierarchy rest acc

/-- `_format_class_proto` (ccindex.py:391-453). -/
def _format_class_proto (cursor : Cursor)
    (context_hierarchy : List (List (Key × Value))) :
    Except String ClassProtoResult := do
  let acc ← collectClassChildren context_hierarchy cursor.children ⟨[], [], [], false⟩
  let template_header :=
    if acc.templateParams.isEmpty then ""
    else "template <" ++ pyJoin ", " acc.templateParamsRepr ++ ">"
  let class_name_str_raw := "class " ++ _format_type_spelling cursor.spelling
  let class_name_str_raw :=
    if acc.isFinal then class_name_str_raw ++ " final" else class_name_str_raw
  let class_name_str :=
    if template_header = "" then class_name_str_raw
    else template_header ++ " " ++ class_name_str_raw
  let class_name_str_pretty :=
    if template_header = "" then class_name_str_raw
    else template_header ++ "\n" ++ class_name_str_raw
  pure
    { nameStr := pyTrim class_name_str
      namePretty := pyTrim class_name_str_pretty
      templateParams := acc.templateParams
      isFinal := acc.isFinal
      baseList := acc.baseList }

/-! ## `_visit_cursor` (ccindex.py:620-758)

The source builds one symbol dict through a sequence of guarded blocks;
each block below is one of those guarded blocks, in source order, and
`_visit_cursor` is their composition.  Blocks that can raise return
`Except`. -/

/-- ccindex.py:622-633, part 1: the mandated fields. -/
def visitPart1 (c : Cursor) : List (Key × Value) :=
  let symbol : List (Key × Value) := []
  let symbol := setKey symbol .spelling (.vStr c.spelling)
  let hierarchy_info := _collect_hierarchy c
  let symbol := setKey symbol .hierarchy (.vList (hierarchy_info.1.map Value.vDict))
  let symbol := setKey symbol .parent_kind (.vStr hierarchy_info.2)
  let symbol := setKey symbol .location (.vStr (_format_location c.location))
  let symbol := setKey symbol .kind (.vStr (_format_syntax_kind c.kind))
  let comment_tuple := _format_comment c.rawComment
  let symbol := setKey symbol .comment (.vStr comment_tuple.1)
  let symbol := setKey symbol .usage (.vStr comment_tuple.2)
  symbol

/-- ccindex.py:635-681: the function-like / class-like block.  The
hierarchy argument of the helpers is `symbol["hierarchy"]`, which is
exactly `(_collect_hierarchy c).1` (no block overwrites it). -/
def visitFuncClass (c : Cursor) (macroMap : String → Option String)
    (symbol : List (Key × Value)) : Except String (List (Key × Value)) :=
  if c.kind ∈ func_like_CursorKind then do
    let func_proto ← _format_func_proto c (_collect_hierarchy c).1
    let from_macro := macroMap (_format_location c.location)
    let symbol := setKey symbol .from_macro_key (optStrValue from_macro)
    let symbol :=
      if (match from_macro with | some s => !(s.toList.isEmpty) | none => false) then
        -- macro-instantiated: substitute the raw source text
        let symbol := setKey symbol .declaration_pretty (.vStr c.extentText)
        setKey symbol .declaration (.vStr c.extentText)
      else
        let symbol := setKey symbol .declaration (.vStr (func_proto.protoStr ++ ";"))
        setKey symbol .declaration_pretty (.vStr (func_proto.protoStrPretty ++ ";"))
    let symbol := setKey symbol .is_template (.vBool (!func_proto.templateParams.isEmpty))
    let symbol := setKey symbol .template_args_list (.vList func_proto.templateParams)
    let symbol := setKey symbol .args_list (.vList func_proto.args)
    let symbol := setKey symbol .return_type
      (match func_proto.returnType with | some v => v | none => .vNone)
    let specifier_list :=
      (if func_proto.isFinal then ["final"] else []) ++
      (if func_proto.isOverride then ["override"] else []) ++
      (if func_proto.isPureVirtual then ["= 0"] else []) ++
      (if func_proto.isNoThrow = some true then ["noexcept"] else [])
    let symbol := setKey symbol .specifier (.vList (specifier_list.map Value.vStr))
    let no_throw :=
      match func_proto.isNoThrow with
      | some true => "guaranteed"
      | none => "unevaluated"
      | some false => "not_guaranteed"
    pure (setKey symbol .no_throw_guarantee (.vStr no_throw))
  else if c.kind ∈ class_like_CursorKind then do
    let class_proto ← _format_class_proto c (_collect_hierarchy c).1
    let symbol := setKey symbol .declaration (.vStr (class_proto.nameStr ++ ";"))
    let symbol := setKey symbol .declaration_pretty (.vStr (class_proto.namePretty ++ ";"))
    let symbol := setKey symbol .is_template (.vBool (!class_proto.templateParams.isEmpty))
    let symbol := setKey symbol .template_args_list (.vList class_proto.templateParams)
    let symbol := setKey symbol .specifier
      (.vList (if class_proto.isFinal then [.vStr "final"] else []))
    let symbol := setKey symbol .base_clause (.vList class_proto.baseList)
    let symbol := setKey symbol .is_abstract (.vBool c.isAbstractRecord)
    pure (setKey symbol .size (optIntValue (_format_sizeof_type c.type)))
  else pure symbol

/-- ccindex.py:682-686: access specifier and membership. -/
def visitMember (c : Cursor) (symbol : List (Key × Value)) : List (Key × Value) :=
  if c.semanticParentKind ∈ class_like_CursorKind then
    let symbol := setKey symbol .access
      (.vStr (pyLower ((pySplit c.accessSpecifierStr ".").getLastD "")))
    setKey symbol .is_member (.vBool true)
  else
    setKey symbol .is_member (.vBool false)

/-- ccindex.py:687-693: POD flag, type descriptor and size for
value-like nodes and class/struct declarations. -/
def visitValType (c : Cursor) (symbol : List (Key × Value)) :
    Except String (List (Key × Value)) :=
  if c.kind ∈ val_like_CursorKind ++ [.class_decl, .struct_decl] then do
    let symbol := setKey symbol .POD (.vBool c.type.pod)
    let ti ← _collect_type_info c.type (_collect_hierarchy c).1
      (some (c.semanticParentSpelling, c.semanticParentLocation))
    let symbol := setKey symbol .type ti
    let tinfo ← (match ti with | .vDict d => dictGetE d .type_info | _ => .error "TypeError")
    let tsize ← (match tinfo with | .vDict d => dictGetE d .type_size | _ => .error "TypeError")
    pure (setKey symbol .size tsize)
  else pure symbol

/-- ccindex.py:694-701: typedef / type-alias fields. -/
def visitTypedef (c : Cursor) (symbol : List (Key × Value)) : List (Key × Value) :=
  if c.kind = .typedef_decl ∨ c.kind = .type_alias_decl then
    let underlying_str :=
      match c.underlyingTypedefType with
      | some t => _format_type t
      | none => ""
    let symbol := setKey symbol .type_alias_underlying_type (.vStr underlying_str)
    let symbol := setKey symbol .type_alias_chain (.vList (_format_type_alias_chain c.type))
    let canonical_str :=
      match c.type.canonical with
      | some t => _format_type t
      | none => ""
    setKey symbol .canonical_type (.vStr canonical_str)
  else symbol

/-- ccindex.py:702-718: the method-like block (`FUNCTION_TEMPLATE` is
method-like only when the semantic parent is class-like). -/
def visitMethodLike (c : Cursor) (symbol : List (Key × Value)) : List (Key × Value) :=
  if c.kind ∈ method_like_CursorKind ∨
      (c.kind = .function_template ∧ c.semanticParentKind ∈ class_like_CursorKind) then
    let symbol := setKey symbol .is_deleted (.vBool (is_deleted_method c))
    let method_property :=
      (if c.isStaticMethod then ["static"] else []) ++
      (if c.isConstMethod then ["const"] else []) ++
      (if c.isVirtualMethod then ["virtual"] else []) ++
      (if c.isPureVirtualMethod then ["pure_virtual"] else []) ++
      (if c.isDefaultMethod then ["default"] else []) ++
      (if is_deleted_method c then ["delete"] else [])
    setKey symbol .method_property (.vList (method_property.map Value.vStr))
  else symbol

/-- ccindex.py:719-731: the constructor block; reads
`symbol["is_deleted"]` (present: a constructor is method-like). -/
def visitCtor (c : Cursor) (symbol : List (Key × Value)) :
    Except String (List (Key × Value)) :=
  if c.kind = .constructor then do
    let vdel ← dictGetE symbol .is_deleted
    let constructor_property :=
      (if valueTruthy vdel then ["delete"] else []) ++
      (if c.isDefaultConstructor then ["default"] else []) ++
      (if c.isCopyConstructor then ["copy"] else []) ++
      (if c.isMoveConstructor then ["move"] else []) ++
      (if c.isConvertingConstructor then ["converting"] else [])
    pure (setKey symbol .constructor_property (.vList (constructor_property.map Value.vStr)))
  else pure symbol

/-- ccindex.py:732-743: the destructor block.  For a deleted destructor
the source appends to `constructor_property`, a local that was never
assigned on this path (ccindex.py:735), so Python raises
`UnboundLocalError` and no record is produced. -/
def visitDtor (c : Cursor) (symbol : List (Key × Value)) :
    Except String (List (Key × Value)) :=
  if c.kind = .destructor then do
    let vdel ← dictGetE symbol .is_deleted
    if valueTruthy vdel then
      .error "UnboundLocalError: local variable 'constructor_property' referenced before assignment"
    else
      let destructor_property :=
        (if c.isDefaultMethod then ["default"] else []) ++
        (if c.isVirtualMethod then ["virtual"] else []) ++
        (if c.isPureVirtualMethod then ["pure_virtual"] else [])
      pure (setKey symbol .destructor_property (.vList (destructor_property.map Value.vStr)))
  else pure symbol

/-- ccindex.py:744-749: static-member detection. -/
def visitStaticMember (c : Cursor) (symbol : List (Key × Value)) : List (Key × Value) :=
  let symbol :=
    if c.semanticParentKind ∈ class_like_CursorKind ∧ c.kind = .var_decl then
      setKey symbol .static_member (.vBool true)
    else symbol
  if c.kind = .field_decl then setKey symbol .static_member (.vBool false) else symbol

/-- ccindex.py:750-757: enum metadata. -/
def visitEnum (c : Cursor) (symbol : List (Key × Value)) :
    Except String (List (Key × Value)) :=
  if c.kind = .enum_decl then do
    let symbol := setKey symbol .scoped_enum (.vBool c.isScopedEnum)
    let et ← (match c.enumType with
      | some t => Except.ok t
      | none => Except.error "invalid enum type (model)")
    let ti ← _collect_type_info et (_collect_hierarchy c).1
      (some (c.semanticParentSpelling, c.semanticParentLocation))
    pure (setKey symbol .enum_underlying_type ti)
  else if c.kind = .enum_constant_decl then do
    let et ← (match c.type.declEnumType with
      | some t => Except.ok t
      | none => Except.error "invalid enum type (model)")
    let ti ← _collect_type_info et (_collect_hierarchy c).1
      (some (c.semanticParentSpelling, c.semanticParentLocation))
    let symbol := setKey symbol .enum_underlying_type ti
    pure (setKey symbol .enum_value (.vInt c.enumValue))
  else pure symbol

/-- `_visit_cursor` (ccindex.py:620-758): the sequential composition of
the blocks above. -/
def _visit_cursor (c : Cursor) (macroMap : String → Option String) :
    Except String (List (Key × Value)) := do
  let symbol := visitPart1 c
  let symbol ← visitFuncClass c macroMap symbol
  let symbol := visitMember c symbol
  let symbol ← visitValType c symbol
  let symbol := visitTypedef c symbol
  let symbol := visitMethodLike c symbol
  let symbol ← visitCtor c symbol
  let symbol ← visitDtor c symbol
  let symbol := visitStaticMember c symbol
  visitEnum c symbol

/-! ## Field-preservation lemmas

For each block of `_visit_cursor`, reading a key the block does not
write returns what the incoming dict held. -/

@[simp] theorem ok_bind {α β : Type} (a : α) (f : α → Except String β) :
    (Except.ok a : Except String α) >>= f = f a := rfl

@[simp] theorem error_bind {α β : Type} (e : String) (f : α → Except String β) :
    (Except.error e : Except String α) >>= f = .error e := rfl

@[simp] theorem pure_eq_ok {α : Type} (a : α) : (pure a : Except String α) = .ok a := rfl

theorem getKey_visitMember (c : Cursor) (symbol : List (Key × Value)) (k : Key)
    (h1 : k ≠ .access) (h2 : k ≠ .is_member) :
    getKey (visitMember c symbol) k = getKey symbol k := by
  unfold visitMember
  split <;> simp [getKey_setKey, h1, h2]

theorem getKey_visitTypedef (c : Cursor) (symbol : List (Key × Value)) (k : Key)
    (h1 : k ≠ .type_alias_underlying_type) (h2 : k ≠ .type_alias_chain)
    (h3 : k ≠ .canonical_type) :
    getKey (visitTypedef c symbol) k = getKey symbol k := by
  unfold visitTypedef
  split <;> simp [getKey_setKey, h1, h2, h3]

theorem getKey_visitCtor (c : Cursor) (symbol d : List (Key × Value)) (k : Key)
    (h : visitCtor c symbol = .ok d) (h1 : k ≠ .constructor_property) :
    getKey d k = getKey symbol k := by
  unfold visitCtor at h
  split at h
  · cases hdel : dictGetE symbol .is_deleted with
    | error e =>
      simp only [hdel, error_bind] at h
      exact absurd h (by simp)
    | ok vdel =>
      simp only [hdel, ok_bind, pure_eq_ok] at h
      cases h
      simp [getKey_setKey, h1]
  · simp only [pure_eq_ok] at h
    cases h
    rfl

theorem getKey_visitDtor (c : Cursor) (symbol d : List (Key × Value)) (k : Key)
    (h : visitDtor c symbol = .ok d) (h1 : k ≠ .destructor_property) :
    getKey d k = getKey symbol k := by
  unfold visitDtor at h
  split at h
  · cases hdel : dictGetE symbol .is_deleted with
    | error e =>
      simp only [hdel, error_bind] at h
      exact absurd h (by simp)
    | ok vdel =>
      simp only [hdel, ok_bind] at h
      split at h
      · exact absurd h (by simp)
      · simp only [pure_eq_ok] at h
        cases h
        simp [getKey_setKey, h1]
  · simp only [pure_eq_ok] at h
    cases h
    rfl

theorem getKey_visitStaticMember (c : Cursor) (symbol : List (Key × Value)) (k : Key)
    (h1 : k ≠ .static_member) :
    getKey (visitStaticMember c symbol) k = getKey symbol k := by
  unfold visitStaticMember
  split <;> split <;> simp [getKey_setKey, h1]

theorem getKey_visitEnum (c : Cursor) (symbol d : List (Key × Value)) (k : Key)
    (h : visitEnum c symbol = .ok d) (h1 : k ≠ .scoped_enum)
    (h2 : k ≠ .enum_underlying_type) (h3 : k ≠ .enum_value) :
    getKey d k = getKey symbol k := by
  unfold visitEnum at h
  split at h
  · cases het : c.enumType with
    | none =>
      simp only [het, error_bind] at h
      exact absurd h (by simp)
    | some et =>
      simp only [het, ok_bind] at h
      cases hti : _collect_type_info et (_collect_hierarchy c).1
          (some (c.semanticParentSpelling, c.semanticParentLocation)) with
      | error e =>
        simp only [hti, error_bind] at h
        exact absurd h (by simp)
      | ok ti =>
        simp only [hti, ok_bind, pure_eq_ok] at h
        cases h
        simp [getKey_setKey, h1, h2, h3]
  · split at h
    · cases het : c.type.declEnumType with
      | none =>
        simp only [het, error_bind] at h
        exact absurd h (by simp)
      | some et =>
        simp only [het, ok_bind] at h
        cases hti : _collect_type_info et (_collect_hierarchy c).1
            (some (c.semanticParentSpelling, c.semanticParentLocation)) with
        | error e =>
          simp only [hti, error_bind] at h
          exact absurd h (by simp)
        | ok ti =>
          simp only [hti, ok_bind, pure_eq_ok] at h
          cases h
          simp [getKey_setKey, h1, h2, h3]
    · simp only [pure_eq_ok] at h
      cases h
      rfl

theorem getKey_visitMethodLike (c : Cursor) (symbol : List (Key × Value)) (k : Key)
    (h1 : k ≠ .is_deleted) (h2 : k ≠ .method_property) :
    getKey (visitMethodLike c symbol) k = getKey symbol k := by
  unfold visitMethodLike
  split <;> simp [getKey_setKey, h1, h2]

theorem getKey_visitValType (c : Cursor) (symbol d : List (Key × Value)) (k : Key)
    (h : visitValType c symbol = .ok d) (h1 : k ≠ .POD) (h2 : k ≠ .type)
    (h3 : k ≠ .size) :
    getKey d k = getKey symbol k := by
  unfold visitValType at h
  split at h
  · cases hti : _collect_type_info c.type (_collect_hierarchy c).1
        (some (c.semanticParentSpelling, c.semanticParentLocation)) with
    | error e =>
      simp only [hti, error_bind] at h
      exact absurd h (by simp)
    | ok ti =>
      simp only [hti, ok_bind] at h
      cases ti with
      | vDict dd =>
        simp only at h
        cases htinfo : dictGetE dd .type_info with
        | error e =>
          simp only [htinfo, error_bind] at h
          exact absurd h (by simp)
        | ok tinfo =>
          simp only [htinfo, ok_bind] at h
          cases tinfo with
          | vDict dd2 =>
            simp only at h
            cases htsize : dictGetE dd2 .type_size with
            | error e =>
              simp only [htsize, error_bind] at h
              exact absurd h (by simp)
            | ok tsize =>
              simp only [htsize, ok_bind, pure_eq_ok] at h
              cases h
              simp [getKey_setKey, h1, h2, h3]
          | vStr s => simp only at h; exact absurd h (by simp)
          | vBool b => simp only at h; exact absurd h (by simp)
          | vInt n => simp only at h; exact absurd h (by simp)
          | vNone => simp only at h; exact absurd h (by simp)
          | vList l => simp only at h; exact absurd h (by simp)
      | vStr s => simp only at h; exact absurd h (by simp)
      | vBool b => simp only at h; exact absurd h (by simp)
      | vInt n => simp only at h; exact absurd h (by simp)
      | vNone => simp only at h; exact absurd h (by simp)
      | vList l => simp only at h; exact absurd h (by simp)
  · simp only [pure_eq_ok] at h
    cases h
    rfl

theorem getKey_visitFuncClass (c : Cursor) (m : String → Option String)
    (symbol d : List (Key × Value)) (k : Key)
    (h : visitFuncClass c m symbol = .ok d)
    (h1 : k ≠ .from_macro_key) (h2 : k ≠ .declaration) (h3 : k ≠ .declaration_pretty)
    (h4 : k ≠ .is_template) (h5 : k ≠ .template_args_list) (h6 : k ≠ .args_list)
    (h7 : k ≠ .return_type) (h8 : k ≠ .specifier) (h9 : k ≠ .no_throw_guarantee)
    (h10 : k ≠ .base_clause) (h11 : k ≠ .is_abstract) (h12 : k ≠ .size) :
    getKey d k = getKey symbol k := by
  unfold visitFuncClass at h
  split at h
  · cases hfp : _format_func_proto c (_collect_hierarchy c).1 with
    | error e =>
      simp only [hfp, error_bind] at h
      exact absurd h (by simp)
    | ok fp =>
      simp only [hfp, ok_bind, pure_eq_ok] at h
      cases h
      split <;> simp [getKey_setKey, h1, h2, h3, h4, h5, h6, h7, h8, h9]
  · split at h
    · cases hcp : _format_class_proto c (_collect_hierarchy c).1 with
      | error e =>
        simp only [hcp, error_bind] at h
        exact absurd h (by simp)
      | ok cp =>
        simp only [hcp, ok_bind, pure_eq_ok] at h
        cases h
        simp [getKey_setKey, h2, h3, h4, h5, h8, h10, h11, h12]
    · simp only [pure_eq_ok] at h
      cases h
      rfl

/-- Decomposition of a successful `_visit_cursor` run into its blocks. -/
theorem visit_cursor_decomp (c : Cursor) (m : String → Option String)
    (sym : List (Key × Value)) (h : _visit_cursor c m = .ok sym) :
    ∃ s1 s3 s6 s7,
      visitFuncClass c m (visitPart1 c) = .ok s1 ∧
      visitValType c (visitMember c s1) = .ok s3 ∧
      visitCtor c (visitMethodLike c (visitTypedef c s3)) = .ok s6 ∧
      visitDtor c s6 = .ok s7 ∧
      visitEnum c (visitStaticMember c s7) = .ok sym := by
  unfold _visit_cursor at h
  cases hs1 : visitFuncClass c m (visitPart1 c) with
  | error e =>
    simp only [hs1, error_bind] at h
    exact absurd h (by simp)
  | ok s1 =>
    simp only [hs1, ok_bind] at h
    cases hs3 : visitValType c (visitMember c s1) with
    | error e =>
      simp only [hs3, error_bind] at h
      exact absurd h (by simp)
    | ok s3 =>
      simp only [hs3, ok_bind] at h
      cases hs6 : visitCtor c (visitMethodLike c (visitTypedef c s3)) with
      | error e =>
        simp only [hs6, error_bind] at h
        exact absurd h (by simp)
      | ok s6 =>
        simp only [hs6, ok_bind] at h
        cases hs7 : visitDtor c s6 with
        | error e =>
          simp only [hs7, error_bind] at h
          exact absurd h (by simp)
        | ok s7 =>
          simp only [hs7, ok_bind] at h
          exact ⟨s1, s3, s6, s7, rfl, hs3, hs6, hs7, h⟩

/-- C7.  The Hierarchy Resolver returns an empty list and parent-kind
`"(global)"` exactly as claimed when the node's semantic parent is the
translation unit itself. -/
theorem ccindex_C7 (c : Cursor) (h : c.semanticParentKind = .translation_unit) :
    _collect_hierarchy c = ([], "(global)") := by
  cases hanc : c.ancestors with
  | nil => simp [_collect_hierarchy, hanc]
  | cons a rest =>
    have ha : a.kind = .translation_unit := by
      have h' := h
      unfold Cursor.semanticParentKind at h'
      rw [hanc] at h'
      simpa using h'
    simp [_collect_hierarchy, hanc, ha]

/-- A namespace cursor sitting directly in the global scope. -/
def nsCursorGlobal : Cursor :=
  { kind := .namespaceKind
    spelling := "util"
    displayname := "util"
    location := ⟨some "t.cc", 1, 1⟩
    rawComment := none
    extentText := "namespace util {}"
    type := intBuiltinType
    resultType := intBuiltinType
    underlyingTypedefType := none
    enumType := none
    enumValue := 0
    children := []
    tokens := []
    ancestors := []
    accessSpecifierStr := "AccessSpecifier.INVALID"
    isConstMethod := false
    isVirtualMethod := false
    isPureVirtualMethod := false
    isStaticMethod := false
    isDefaultMethod := false
    isAbstractRecord := false
    isDefaultConstructor := false
    isCopyConstructor := false
    isMoveConstructor := false
    isConvertingConstructor := false
    isScopedEnum := false
    exceptionSpecKind := .noneSpec }

/-- C7, witness: the theorem applied to a cursor whose semantic parent is
the translation unit. -/
theorem ccindex_C7_witness : _collect_hierarchy nsCursorGlobal = ([], "(global)") :=
  ccindex_C7 nsCursorGlobal rfl

/-- C10.  In every produced symbol record the `comment` and `usage`
fields hold the two strings `_format_comment` returns, and when the
node's raw documentation comment is absent (`None`) both are the empty
string. -/
theorem ccindex_C10 (c : Cursor) (m : String → Option String)
    (sym : List (Key × Value)) (h : _visit_cursor c m = .ok sym) :
    getKey sym .comment = some (.vStr (_format_comment c.rawComment).1) ∧
    getKey sym .usage = some (.vStr (_format_comment c.rawComment).2) ∧
    (c.rawComment = none →
      getKey sym .comment = some (.vStr "") ∧ getKey sym .usage = some (.vStr "")) := by
  obtain ⟨s1, s3, s6, s7, hs1, hs3, hs6, hs7, hfin⟩ := visit_cursor_decomp c m sym h
  have chain : ∀ k : Key, k = .comment ∨ k = .usage → getKey sym k = getKey (visitPart1 c) k := by
    intro k hk
    have n1 : k ≠ .from_macro_key := by rcases hk with rfl | rfl <;> decide
    have n2 : k ≠ .declaration := by rcases hk with rfl | rfl <;> decide
    have n3 : k ≠ .declaration_pretty := by rcases hk with rfl | rfl <;> decide
    have n4 : k ≠ .is_template := by rcases hk with rfl | rfl <;> decide
    have n5 : k ≠ .template_args_list := by rcases hk with rfl | rfl <;> decide
    have n6 : k ≠ .args_list := by rcases hk with rfl | rfl <;> decide
    have n7 : k ≠ .return_type := by rcases hk with rfl | rfl <;> decide
    have n8 : k ≠ .specifier := by rcases hk with rfl | rfl <;> decide
    have n9 : k ≠ .no_throw_guarantee := by rcases hk with rfl | rfl <;> decide
    have n10 : k ≠ .base_clause := by rcases hk with rfl | rfl <;> decide
    have n11 : k ≠ .is_abstract := by rcases hk with rfl | rfl <;> decide
    have n12 : k ≠ .size := by rcases hk with rfl | rfl <;> decide
    have n13 : k ≠ .access := by rcases hk with rfl | rfl <;> decide
    have n14 : k ≠ .is_member := by rcases hk with rfl | rfl <;> decide
    have n15 : k ≠ .POD := by rcases hk with rfl | rfl <;> decide
    have n16 : k ≠ .type := by rcases hk with rfl | rfl <;> decide
    have n17 : k ≠ .type_alias_underlying_type := by rcases hk with rfl | rfl <;> decide
    have n18 : k ≠ .type_alias_chain := by rcases hk with rfl | rfl <;> decide
    have n19 : k ≠ .canonical_type := by rcases hk with rfl | rfl <;> decide
    have n20 : k ≠ .is_deleted := by rcases hk with rfl | rfl <;> decide
    have n21 : k ≠ .method_property := by rcases hk with rfl | rfl <;> decide
    have n22 : k ≠ .constructor_property := by rcases hk with rfl | rfl <;> decide
    have n23 : k ≠ .destructor_property := by rcases hk with rfl | rfl <;> decide
    have n24 : k ≠ .static_member := by rcases hk with rfl | rfl <;> decide
    have n25 : k ≠ .scoped_enum := by rcases hk with rfl | rfl <;> decide
    have n26 : k ≠ .enum_underlying_type := by rcases hk with rfl | rfl <;> decide
    have n27 : k ≠ .enum_value := by rcases hk with rfl | rfl <;> decide
    calc getKey sym k
        = getKey (visitStaticMember c s7) k :=
          getKey_visitEnum c _ sym k hfin n25 n26 n27
      _ = getKey s7 k := getKey_visitStaticMember c s7 k n24
      _ = getKey s6 k := getKey_visitDtor c s6 s7 k hs7 n23
      _ = getKey (visitMethodLike c (visitTypedef c s3)) k :=
          getKey_visitCtor c _ s6 k hs6 n22
      _ = getKey (visitTypedef c s3) k := getKey_visitMethodLike c _ k n20 n21
      _ = getKey s3 k := getKey_visitTypedef c s3 k n17 n18 n19
      _ = getKey (visitMember c s1) k := getKey_visitValType c _ s3 k hs3 n15 n16 n12
      _ = getKey s1 k := getKey_visitMember c s1 k n13 n14
      _ = getKey (visitPart1 c) k :=
          getKey_visitFuncClass c m _ s1 k hs1 n1 n2 n3 n4 n5 n6 n7 n8 n9 n10 n11 n12
  have hc := chain .comment (Or.inl rfl)
  have hu := chain .usage (Or.inr rfl)
  have hc1 : getKey (visitPart1 c) .comment = some (.vStr (_format_comment c.rawComment).1) := rfl
  have hu1 : getKey (visitPart1 c) .usage = some (.vStr (_format_comment c.rawComment).2) := rfl
  refine ⟨hc.trans hc1, hu.trans hu1, ?_⟩
  intro hnone
  rw [hc.trans hc1, hu.trans hu1, hnone]
  exact ⟨rfl, rfl⟩

/-- C10, witness: the theorem applied to a cursor with no raw comment. -/
def nsSymGlobal : List (Key × Value) :=
  setKey (visitPart1 nsCursorGlobal) Key.is_member (Value.vBool false)

theorem ccindex_C10_witness :
    getKey nsSymGlobal .comment
        = some (.vStr (_format_comment nsCursorGlobal.rawComment).1) ∧
    getKey nsSymGlobal .usage
        = some (.vStr (_format_comment nsCursorGlobal.rawComment).2) ∧
    (nsCursorGlobal.rawComment = none →
      getKey nsSymGlobal .comment = some (.vStr "") ∧
      getKey nsSymGlobal .usage = some (.vStr "")) := by
  have hok : _visit_cursor nsCursorGlobal (fun _ => none) = .ok nsSymGlobal := by
    rfl
  exact ccindex_C10 nsCursorGlobal (fun _ => none) nsSymGlobal hok

/-- C9.  Every produced symbol record has an `is_member` boolean that is
true exactly when the node's semantic parent is class-like, and the
`access` field is present exactly in that case. -/
theorem ccindex_C9 (c : Cursor) (m : String → Option String)
    (sym : List (Key × Value)) (h : _visit_cursor c m = .ok sym) :
    (c.semanticParentKind ∈ class_like_CursorKind →
      getKey sym .is_member = some (.vBool true) ∧ (getKey sym .access).isSome = true) ∧
    (c.semanticParentKind ∉ class_like_CursorKind →
      getKey sym .is_member = some (.vBool false) ∧ getKey sym .access = none) := by
  obtain ⟨s1, s3, s6, s7, hs1, hs3, hs6, hs7, hfin⟩ := visit_cursor_decomp c m sym h
  have chain : ∀ k : Key, k = .is_member ∨ k = .access →
      getKey sym k = getKey (visitMember c s1) k := by
    intro k hk
    have n12 : k ≠ .size := by rcases hk with rfl | rfl <;> decide
    have n15 : k ≠ .POD := by rcases hk with rfl | rfl <;> decide
    have n16 : k ≠ .type := by rcases hk with rfl | rfl <;> decide
    have n17 : k ≠ .type_alias_underlying_type := by rcases hk with rfl | rfl <;> decide
    have n18 : k ≠ .type_alias_chain := by rcases hk with rfl | rfl <;> decide
    have n19 : k ≠ .canonical_type := by rcases hk with rfl | rfl <;> decide
    have n20 : k ≠ .is_deleted := by rcases hk with rfl | rfl <;> decide
    have n21 : k ≠ .method_property := by rcases hk with rfl | rfl <;> decide
    have n22 : k ≠ .constructor_property := by rcases hk with rfl | rfl <;> decide
    have n23 : k ≠ .destructor_property := by rcases hk with rfl | rfl <;> decide
    have n24 : k ≠ .static_member := by rcases hk with rfl | rfl <;> decide
    have n25 : k ≠ .scoped_enum := by rcases hk with rfl | rfl <;> decide
    have n26 : k ≠ .enum_underlying_type := by rcases hk with rfl | rfl <;> decide
    have n27 : k ≠ .enum_value := by rcases hk with rfl | rfl <;> decide
    calc getKey sym k
        = getKey (visitStaticMember c s7) k :=
          getKey_visitEnum c _ sym k hfin n25 n26 n27
      _ = getKey s7 k := getKey_visitStaticMember c s7 k n24
      _ = getKey s6 k := getKey_visitDtor c s6 s7 k hs7 n23
      _ = getKey (visitMethodLike c (visitTypedef c s3)) k :=
          getKey_visitCtor c _ s6 k hs6 n22
      _ = getKey (visitTypedef c s3) k := getKey_visitMethodLike c _ k n20 n21
      _ = getKey s3 k := getKey_visitTypedef c s3 k n17 n18 n19
      _ = getKey (visitMember c s1) k := getKey_visitValType c _ s3 k hs3 n15 n16 n12
  have haccess_pre : getKey s1 .access = none := by
    have h1 : getKey (visitPart1 c) .access = none := rfl
    have h2 := getKey_visitFuncClass c m (visitPart1 c) s1 .access hs1
      (by decide) (by decide) (by decide) (by decide) (by decide) (by decide)
      (by decide) (by decide) (by decide) (by decide) (by decide) (by decide)
    rw [h2, h1]
  have hm := chain .is_member (Or.inl rfl)
  have ha := chain .access (Or.inr rfl)
  by_cases hcl : c.semanticParentKind ∈ class_like_CursorKind
  · refine ⟨fun _ => ?_, fun hn => absurd hcl hn⟩
    unfold visitMember at hm ha
    rw [if_pos hcl] at hm ha
    simp only [getKey_setKey] at hm ha
    simp at hm ha
    rw [hm, ha]
    exact ⟨rfl, rfl⟩
  · refine ⟨fun hy => absurd hy hcl, fun _ => ?_⟩
    unfold visitMember at hm ha
    rw [if_neg hcl] at hm ha
    simp only [getKey_setKey] at hm ha
    simp at hm ha
    exact ⟨hm, ha.trans haccess_pre⟩

/-- C9, witness: the theorem applied to a global namespace cursor (its
parent is the translation unit, which is not class-like). -/
theorem ccindex_C9_witness :
    (nsCursorGlobal.semanticParentKind ∈ class_like_CursorKind →
      getKey nsSymGlobal .is_member = some (.vBool true) ∧
        (getKey nsSymGlobal .access).isSome = true) ∧
    (nsCursorGlobal.semanticParentKind ∉ class_like_CursorKind →
      getKey nsSymGlobal .is_member = some (.vBool false) ∧
        getKey nsSymGlobal .access = none) :=
  ccindex_C9 nsCursorGlobal (fun _ => none) nsSymGlobal (by rfl)

/-- C8.  A `FUNCTION_TEMPLATE` node receives the method-specific fields
`is_deleted` and `method_property` exactly when its semantic parent is
class-like; a free function template receives neither. -/
theorem ccindex_C8 (c : Cursor) (m : String → Option String)
    (sym : List (Key × Value)) (h : _visit_cursor c m = .ok sym)
    (hk : c.kind = .function_template) :
    (((getKey sym .is_deleted).isSome ∧ (getKey sym .method_property).isSome) ↔
      c.semanticParentKind ∈ class_like_CursorKind) := by
  obtain ⟨s1, s3, s6, s7, hs1, hs3, hs6, hs7, hfin⟩ := visit_cursor_decomp c m sym h
  have chain : ∀ k : Key, k = .is_deleted ∨ k = .method_property →
      getKey sym k = getKey (visitMethodLike c (visitTypedef c s3)) k := by
    intro k hkk
    have n22 : k ≠ .constructor_property := by rcases hkk with rfl | rfl <;> decide
    have n23 : k ≠ .destructor_property := by rcases hkk with rfl | rfl <;> decide
    have n24 : k ≠ .static_member := by rcases hkk with rfl | rfl <;> decide
    have n25 : k ≠ .scoped_enum := by rcases hkk with rfl | rfl <;> decide
    have n26 : k ≠ .enum_underlying_type := by rcases hkk with rfl | rfl <;> decide
    have n27 : k ≠ .enum_value := by rcases hkk with rfl | rfl <;> decide
    calc getKey sym k
        = getKey (visitStaticMember c s7) k :=
          getKey_visitEnum c _ sym k hfin n25 n26 n27
      _ = getKey s7 k := getKey_visitStaticMember c s7 k n24
      _ = getKey s6 k := getKey_visitDtor c s6 s7 k hs7 n23
      _ = getKey (visitMethodLike c (visitTypedef c s3)) k :=
          getKey_visitCtor c _ s6 k hs6 n22
  have hpre : ∀ k : Key, k = .is_deleted ∨ k = .method_property →
      getKey (visitTypedef c s3) k = none := by
    intro k hkk
    have n1 : k ≠ .from_macro_key := by rcases hkk with rfl | rfl <;> decide
    have n2 : k ≠ .declaration := by rcases hkk with rfl | rfl <;> decide
    have n3 : k ≠ .declaration_pretty := by rcases hkk with rfl | rfl <;> decide
    have n4 : k ≠ .is_template := by rcases hkk with rfl | rfl <;> decide
    have n5 : k ≠ .template_args_list := by rcases hkk with rfl | rfl <;> decide
    have n6 : k ≠ .args_list := by rcases hkk with rfl | rfl <;> decide
    have n7 : k ≠ .return_type := by rcases hkk with rfl | rfl <;> decide
    have n8 : k ≠ .specifier := by rcases hkk with rfl | rfl <;> decide
    have n9 : k ≠ .no_throw_guarantee := by rcases hkk with rfl | rfl <;> decide
    have n10 : k ≠ .base_clause := by rcases hkk with rfl | rfl <;> decide
    have n11 : k ≠ .is_abstract := by rcases hkk with rfl | rfl <;> decide
    have n12 : k ≠ .size := by rcases hkk with rfl | rfl <;> decide
    have n13 : k ≠ .access := by rcases hkk with rfl | rfl <;> decide
    have n14 : k ≠ .is_member := by rcases hkk with rfl | rfl <;> decide
    have n15 : k ≠ .POD := by rcases hkk with rfl | rfl <;> decide
    have n16 : k ≠ .type := by rcases hkk with rfl | rfl <;> decide
    have n17 : k ≠ .type_alias_underlying_type := by rcases hkk with rfl | rfl <;> decide
    have n18 : k ≠ .type_alias_chain := by rcases hkk with rfl | rfl <;> decide
    have n19 : k ≠ .canonical_type := by rcases hkk with rfl | rfl <;> decide
    have e0 : getKey (visitPart1 c) k = none := by rcases hkk with rfl | rfl <;> rfl
    calc getKey (visitTypedef c s3) k
        = getKey s3 k := getKey_visitTypedef c s3 k n17 n18 n19
      _ = getKey (visitMember c s1) k := getKey_visitValType c _ s3 k hs3 n15 n16 n12
      _ = getKey s1 k := getKey_visitMember c s1 k n13 n14
      _ = getKey (visitPart1 c) k :=
          getKey_visitFuncClass c m _ s1 k hs1 n1 n2 n3 n4 n5 n6 n7 n8 n9 n10 n11 n12
      _ = none := e0
  have hm := chain .is_deleted (Or.inl rfl)
  have hp := chain .method_property (Or.inr rfl)
  by_cases hcl : c.semanticParentKind ∈ class_like_CursorKind
  · have cond : c.kind ∈ method_like_CursorKind ∨
        (c.kind = .function_template ∧ c.semanticParentKind ∈ class_like_CursorKind) :=
      Or.inr ⟨hk, hcl⟩
    unfold visitMethodLike at hm hp
    rw [if_pos cond] at hm hp
    simp only [getKey_setKey] at hm hp
    simp at hm hp
    constructor
    · intro _; exact hcl
    · intro _
      rw [hm, hp]
      exact ⟨rfl, rfl⟩
  · have cond : ¬(c.kind ∈ method_like_CursorKind ∨
        (c.kind = .function_template ∧ c.semanticParentKind ∈ class_like_CursorKind)) := by
      rintro (hmem | ⟨_, hcl'⟩)
      · rw [hk] at hmem
        exact absurd hmem (by decide)
      · exact hcl hcl'
    unfold visitMethodLike at hm hp
    rw [if_neg cond] at hm hp
    rw [hpre .is_deleted (Or.inl rfl)] at hm
    rw [hpre .method_property (Or.inr rfl)] at hp
    constructor
    · intro habs
      rw [hm] at habs
      simp at habs
    · intro hy
      exact absurd hy hcl

/-- A function template declared inside a class. -/
def ftCursorMember : Cursor :=
  { kind := .function_template
    spelling := "apply"
    displayname := "apply"
    location := ⟨some "t.cc", 4, 3⟩
    rawComment := none
    extentText := "template <typename T> void apply(T t)"
    type := intBuiltinType
    resultType := intBuiltinType
    underlyingTypedefType := none
    enumType := none
    enumValue := 0
    children := []
    tokens := []
    ancestors := [⟨.class_decl, "Holder", "Holder", ⟨some "t.cc", 2, 1⟩, false⟩]
    accessSpecifierStr := "AccessSpecifier.PUBLIC"
    isConstMethod := false
    isVirtualMethod := false
    isPureVirtualMethod := false
    isStaticMethod := false
    isDefaultMethod := false
    isAbstractRecord := false
    isDefaultConstructor := false
    isCopyConstructor := false
    isMoveConstructor := false
    isConvertingConstructor := false
    isScopedEnum := false
    exceptionSpecKind := .noneSpec }

/-- The record `_visit_cursor` produces for `ftCursorMember`. -/
def c8sym : List (Key × Value) :=
  match _visit_cursor ftCursorMember (fun _ => none) with
  | .ok s => s
  | .error _ => []

/-- C8, witness: the theorem applied to a member function template. -/
theorem ccindex_C8_witness :
    (((getKey c8sym .is_deleted).isSome ∧ (getKey c8sym .method_property).isSome) ↔
      ftCursorMember.semanticParentKind ∈ class_like_CursorKind) :=
  ccindex_C8 ftCursorMember (fun _ => none) c8sym (by rfl) rfl

/-- C4.  Every function-like symbol record carries exactly one of the
three `no_throw_guarantee` values, and `"guaranteed"` implies that
`"noexcept"` appears in the record's specifier list. -/
theorem ccindex_C4 (c : Cursor) (m : String → Option String)
    (sym : List (Key × Value)) (h : _visit_cursor c m = .ok sym)
    (hk : c.kind ∈ func_like_CursorKind) :
    (getKey sym .no_throw_guarantee = some (.vStr "guaranteed") ∨
     getKey sym .no_throw_guarantee = some (.vStr "not_guaranteed") ∨
     getKey sym .no_throw_guarantee = some (.vStr "unevaluated")) ∧
    (getKey sym .no_throw_guarantee = some (.vStr "guaranteed") →
      ∃ l, getKey sym .specifier = some (.vList l) ∧ Value.vStr "noexcept" ∈ l) := by
  obtain ⟨s1, s3, s6, s7, hs1, hs3, hs6, hs7, hfin⟩ := visit_cursor_decomp c m sym h
  have chain : ∀ k : Key, k = .specifier ∨ k = .no_throw_guarantee →
      getKey sym k = getKey s1 k := by
    intro k hkk
    have n12 : k ≠ .size := by rcases hkk with rfl | rfl <;> decide
    have n13 : k ≠ .access := by rcases hkk with rfl | rfl <;> decide
    have n14 : k ≠ .is_member := by rcases hkk with rfl | rfl <;> decide
    have n15 : k ≠ .POD := by rcases hkk with rfl | rfl <;> decide
    have n16 : k ≠ .type := by rcases hkk with rfl | rfl <;> decide
    have n17 : k ≠ .type_alias_underlying_type := by rcases hkk with rfl | rfl <;> decide
    have n18 : k ≠ .type_alias_chain := by rcases hkk with rfl | rfl <;> decide
    have n19 : k ≠ .canonical_type := by rcases hkk with rfl | rfl <;> decide
    have n20 : k ≠ .is_deleted := by rcases hkk with rfl | rfl <;> decide
    have n21 : k ≠ .method_property := by rcases hkk with rfl | rfl <;> decide
    have n22 : k ≠ .constructor_property := by rcases hkk with rfl | rfl <;> decide
    have n23 : k ≠ .destructor_property := by rcases hkk with rfl | rfl <;> decide
    have n24 : k ≠ .static_member := by rcases hkk with rfl | rfl <;> decide
    have n25 : k ≠ .scoped_enum := by rcases hkk with rfl | rfl <;> decide
    have n26 : k ≠ .enum_underlying_type := by rcases hkk with rfl | rfl <;> decide
    have n27 : k ≠ .enum_value := by rcases hkk with rfl | rfl <;> decide
    calc getKey sym k
        = getKey (visitStaticMember c s7) k :=
          getKey_visitEnum c _ sym k hfin n25 n26 n27
      _ = getKey s7 k := getKey_visitStaticMember c s7 k n24
      _ = getKey s6 k := getKey_visitDtor c s6 s7 k hs7 n23
      _ = getKey (visitMethodLike c (visitTypedef c s3)) k :=
          getKey_visitCtor c _ s6 k hs6 n22
      _ = getKey (visitTypedef c s3) k := getKey_visitMethodLike c _ k n20 n21
      _ = getKey s3 k := getKey_visitTypedef c s3 k n17 n18 n19
      _ = getKey (visitMember c s1) k := getKey_visitValType c _ s3 k hs3 n15 n16 n12
      _ = getKey s1 k := getKey_visitMember c s1 k n13 n14
  have hg := chain .no_throw_guarantee (Or.inr rfl)
  have hsp := chain .specifier (Or.inl rfl)
  rw [hg, hsp]
  unfold visitFuncClass at hs1
  rw [if_pos hk] at hs1
  cases hfp : _format_func_proto c (_collect_hierarchy c).1 with
  | error e =>
    simp only [hfp, error_bind] at hs1
    exact absurd hs1 (by simp)
  | ok fp =>
    simp only [hfp, ok_bind, pure_eq_ok] at hs1
    injection hs1 with hs1
    subst hs1
    simp only [getKey_setKey]
    cases hnt : fp.isNoThrow with
    | none => simp
    | some b =>
      cases b with
      | true => simp
      | false => simp

/-- A `noexcept` method of a class. -/
def methCursorNoexcept : Cursor :=
  { kind := .cxx_method
    spelling := "size"
    displayname := "size()"
    location := ⟨some "t.cc", 5, 3⟩
    rawComment := none
    extentText := "int size() const noexcept"
    type := intBuiltinType
    resultType := intBuiltinType
    underlyingTypedefType := none
    enumType := none
    enumValue := 0
    children := []
    tokens := []
    ancestors := [⟨.class_decl, "Holder", "Holder", ⟨some "t.cc", 2, 1⟩, false⟩]
    accessSpecifierStr := "AccessSpecifier.PUBLIC"
    isConstMethod := true
    isVirtualMethod := false
    isPureVirtualMethod := false
    isStaticMethod := false
    isDefaultMethod := false
    isAbstractRecord := false
    isDefaultConstructor := false
    isCopyConstructor := false
    isMoveConstructor := false
    isConvertingConstructor := false
    isScopedEnum := false
    exceptionSpecKind := .basic_noexcept }

/-- The record `_visit_cursor` produces for `methCursorNoexcept`. -/
def c4sym : List (Key × Value) :=
  match _visit_cursor methCursorNoexcept (fun _ => none) with
  | .ok s => s
  | .error _ => []

/-- C4, witness: the theorem applied to a `noexcept` method. -/
theorem ccindex_C4_witness :
    (getKey c4sym .no_throw_guarantee = some (.vStr "guaranteed") ∨
     getKey c4sym .no_throw_guarantee = some (.vStr "not_guaranteed") ∨
     getKey c4sym .no_throw_guarantee = some (.vStr "unevaluated")) ∧
    (getKey c4sym .no_throw_guarantee = some (.vStr "guaranteed") →
      ∃ l, getKey c4sym .specifier = some (.vList l) ∧ Value.vStr "noexcept" ∈ l) :=
  ccindex_C4 methCursorNoexcept (fun _ => none) c4sym (by rfl) (by decide)

/-- The `constructor_property` list ccindex.py:719-731 assembles: one
entry per true front-end predicate, in source order, with no mutual
exclusion. -/
def ctorProps (c : Cursor) : List String :=
  (if is_deleted_method c then ["delete"] else []) ++
  (if c.isDefaultConstructor then ["default"] else []) ++
  (if c.isCopyConstructor then ["copy"] else []) ++
  (if c.isMoveConstructor then ["move"] else []) ++
  (if c.isConvertingConstructor then ["converting"] else [])

/-- C2, amended.  For every constructor record, `constructor_property`
holds exactly the properties whose front-end predicate is true — each of
`delete`, `default`, `copy`, `move`, `converting` appears iff its
predicate holds, independently, with no mutual exclusion and no
priority order (`ccindex_C2_counterexample` shows two of the set
{default, copy, move, converting} together). -/
theorem ccindex_C2 (c : Cursor) (m : String → Option String)
    (sym : List (Key × Value)) (h : _visit_cursor c m = .ok sym)
    (hk : c.kind = .constructor) :
    getKey sym .constructor_property = some (.vList ((ctorProps c).map Value.vStr)) ∧
    ("delete" ∈ ctorProps c ↔ is_deleted_method c = true) ∧
    ("default" ∈ ctorProps c ↔ c.isDefaultConstructor = true) ∧
    ("copy" ∈ ctorProps c ↔ c.isCopyConstructor = true) ∧
    ("move" ∈ ctorProps c ↔ c.isMoveConstructor = true) ∧
    ("converting" ∈ ctorProps c ↔ c.isConvertingConstructor = true) := by
  obtain ⟨s1, s3, s6, s7, hs1, hs3, hs6, hs7, hfin⟩ := visit_cursor_decomp c m sym h
  have chain : getKey sym .constructor_property = getKey s6 .constructor_property := by
    calc getKey sym .constructor_property
        = getKey (visitStaticMember c s7) .constructor_property :=
          getKey_visitEnum c _ sym _ hfin (by decide) (by decide) (by decide)
      _ = getKey s7 .constructor_property :=
          getKey_visitStaticMember c s7 _ (by decide)
      _ = getKey s6 .constructor_property :=
          getKey_visitDtor c s6 s7 _ hs7 (by decide)
  have hcond : c.kind ∈ method_like_CursorKind ∨
      (c.kind = .function_template ∧ c.semanticParentKind ∈ class_like_CursorKind) :=
    Or.inl (by rw [hk]; decide)
  have hdelkey : getKey (visitMethodLike c (visitTypedef c s3)) .is_deleted
      = some (.vBool (is_deleted_method c)) := by
    unfold visitMethodLike
    rw [if_pos hcond]
    simp [getKey_setKey]
  unfold visitCtor at hs6
  rw [if_pos hk] at hs6
  have hget : dictGetE (visitMethodLike c (visitTypedef c s3)) .is_deleted
      = .ok (.vBool (is_deleted_method c)) := by
    unfold dictGetE
    rw [hdelkey]
  simp only [hget, ok_bind, pure_eq_ok] at hs6
  injection hs6 with hs6
  refine ⟨?_, ?_⟩
  · rw [chain, ← hs6]
    simp [getKey_setKey, valueTruthy, ctorProps]
  · simp only [ctorProps]
    cases h1 : is_deleted_method c <;> cases h2 : c.isDefaultConstructor <;>
      cases h3 : c.isCopyConstructor <;> cases h4 : c.isMoveConstructor <;>
      cases h5 : c.isConvertingConstructor <;> decide

/-- A copy constructor, which the front end also reports as a converting
constructor (a non-explicit constructor callable with one argument). -/
def ctorCursorCX : Cursor :=
  { kind := .constructor
    spelling := "A"
    displayname := "A(const A &)"
    location := ⟨some "t.cc", 3, 3⟩
    rawComment := none
    extentText := "A(const A &other)"
    type := intBuiltinType
    resultType := intBuiltinType
    underlyingTypedefType := none
    enumType := none
    enumValue := 0
    children := []
    tokens := []
    ancestors := [⟨.class_decl, "A", "A", ⟨some "t.cc", 1, 1⟩, false⟩]
    accessSpecifierStr := "AccessSpecifier.PUBLIC"
    isConstMethod := false
    isVirtualMethod := false
    isPureVirtualMethod := false
    isStaticMethod := false
    isDefaultMethod := false
    isAbstractRecord := false
    isDefaultConstructor := false
    isCopyConstructor := true
    isMoveConstructor := false
    isConvertingConstructor := true
    isScopedEnum := false
    exceptionSpecKind := .noneSpec }

/-- C2, counterexample.  For a copy constructor that the front end also
reports as converting, the produced `constructor_property` holds both
`"copy"` and `"converting"` — two members of the supposedly mutually
exclusive set {default, copy, move, converting}, and in list order, not
by any priority. -/
theorem ccindex_C2_counterexample :
    (_visit_cursor ctorCursorCX (fun _ => none)).map
        (fun sym => getKey sym .constructor_property)
      = .ok (some (.vList [.vStr "copy", .vStr "converting"])) := by
  rfl

/-- The record `_visit_cursor` produces for `ctorCursorCX`. -/
def c2sym : List (Key × Value) :=
  match _visit_cursor ctorCursorCX (fun _ => none) with
  | .ok s => s
  | .error _ => []

/-- C2, witness: the amended theorem applied to `ctorCursorCX`. -/
theorem ccindex_C2_witness :
    getKey c2sym .constructor_property
        = some (.vList ((ctorProps ctorCursorCX).map Value.vStr)) ∧
    ("delete" ∈ ctorProps ctorCursorCX ↔ is_deleted_method ctorCursorCX = true) ∧
    ("default" ∈ ctorProps ctorCursorCX ↔ ctorCursorCX.isDefaultConstructor = true) ∧
    ("copy" ∈ ctorProps ctorCursorCX ↔ ctorCursorCX.isCopyConstructor = true) ∧
    ("move" ∈ ctorProps ctorCursorCX ↔ ctorCursorCX.isMoveConstructor = true) ∧
    ("converting" ∈ ctorProps ctorCursorCX ↔ ctorCursorCX.isConvertingConstructor = true) :=
  ccindex_C2 ctorCursorCX (fun _ => none) c2sym (by rfl) rfl

/-- C3.  For a destructor marked `= delete`, `_visit_cursor` never
completes with a record: ccindex.py:735 appends the deleted flag to
`constructor_property`, a local that is unbound on the destructor path,
so record production dies with `UnboundLocalError` instead of recording
the deleted property in `destructor_property`. -/
theorem ccindex_C3 (c : Cursor) (m : String → Option String)
    (hk : c.kind = .destructor) (hdel : is_deleted_method c = true)
    (sym : List (Key × Value)) : _visit_cursor c m ≠ .ok sym := by
  intro h
  obtain ⟨s1, s3, s6, s7, hs1, hs3, hs6, hs7, hfin⟩ := visit_cursor_decomp c m sym h
  have hctor : s6 = visitMethodLike c (visitTypedef c s3) := by
    unfold visitCtor at hs6
    rw [if_neg (by rw [hk]; decide)] at hs6
    simp only [pure_eq_ok] at hs6
    injection hs6 with h6
    exact h6.symm
  have hcond : c.kind ∈ method_like_CursorKind ∨
      (c.kind = .function_template ∧ c.semanticParentKind ∈ class_like_CursorKind) :=
    Or.inl (by rw [hk]; decide)
  have hdelkey : getKey s6 .is_deleted = some (.vBool true) := by
    rw [hctor]
    unfold visitMethodLike
    rw [if_pos hcond]
    simp [getKey_setKey, hdel]
  unfold visitDtor at hs7
  rw [if_pos hk] at hs7
  have hget : dictGetE s6 .is_deleted = .ok (.vBool true) := by
    unfold dictGetE
    rw [hdelkey]
  simp only [hget, ok_bind] at hs7
  simp [valueTruthy] at hs7

/-- A destructor marked `= delete` (the keyword appears in its token
stream). -/
def dtorCursorDel : Cursor :=
  { kind := .destructor
    spelling := "~A"
    displayname := "~A()"
    location := ⟨some "t.cc", 4, 3⟩
    rawComment := none
    extentText := "~A() = delete"
    type := intBuiltinType
    resultType := intBuiltinType
    underlyingTypedefType := none
    enumType := none
    enumValue := 0
    children := []
    tokens := [⟨.punctuation, "~"⟩, ⟨.identifier, "A"⟩, ⟨.punctuation, "("⟩,
               ⟨.punctuation, ")"⟩, ⟨.punctuation, "="⟩, ⟨.keyword, "delete"⟩]
    ancestors := [⟨.class_decl, "A", "A", ⟨some "t.cc", 1, 1⟩, false⟩]
    accessSpecifierStr := "AccessSpecifier.PUBLIC"
    isConstMethod := false
    isVirtualMethod := false
    isPureVirtualMethod := false
    isStaticMethod := false
    isDefaultMethod := false
    isAbstractRecord := false
    isDefaultConstructor := false
    isCopyConstructor := false
    isMoveConstructor := false
    isConvertingConstructor := false
    isScopedEnum := false
    exceptionSpecKind := .noneSpec }

/-- C3, witness: on the deleted destructor the run raises the
`UnboundLocalError` of ccindex.py:735 (evaluated), and by the theorem it
yields no record. -/
theorem ccindex_C3_witness :
    _visit_cursor dtorCursorDel (fun _ => none)
        = .error "UnboundLocalError: local variable 'constructor_property' referenced before assignment" ∧
    _visit_cursor dtorCursorDel (fun _ => none) ≠ .ok [] :=
  ⟨by rfl, ccindex_C3 dtorCursorDel (fun _ => none) rfl (by rfl) []⟩

/-! ## The driver: `_traverse_ast` and `_get_symbols`
(ccindex.py:764-793 and 819-890)

The file system (`os.path.isdir`, `os.path.abspath`) is embedded as an
environment; `time.time()` readings are the four components of `clock`
(before/after parsing, before/after traversing); the parse itself is
external and its result is the input `TranslationUnitModel`. -/

/-- Python `str(location.file)`: the string `"None"` for `None`. -/
def pyFileStr (f : Option String) : String :=
  match f with
  | some s => s
  | none => "None"

/-- One entry of `tu.get_includes()`. -/
structure IncludeEntry where
  includeFile : String
  location : Location
  depth : Int

/-- The translation unit the external parse produces: the pre-order
cursor walk (`root.walk_preorder()`), diagnostics, include entries. -/
structure TranslationUnitModel where
  cursors : List Cursor
  diagnostics : List String
  includes : List IncludeEntry

/-- The file-system environment. -/
structure FsEnv where
  isDir : String → Bool
  abspath : String → String

/-- `SYS_INCLUDE_PATHS` (ccindex.py:54-58). -/
def SYS_INCLUDE_PATHS : List String :=
  ["/Library/Developer/CommandLineTools/usr/include/c++/v1", "/usr/include"]

/-- `_is_in_paths` (ccindex.py:811-817). -/
def _is_in_paths (env : FsEnv) (filename : String) (path_list : List String) : Bool :=
  path_list.any (fun p => pyStartsWith (env.abspath filename) (env.abspath p))

/-- `_verify_include_paths` (ccindex.py:799-809), as its boolean result
(printing is I/O and does not affect the returned value). -/
def _verify_include_paths (env : FsEnv) (include_paths : List String) : Bool :=
  (include_paths.filter (fun p => !env.isDir p)).isEmpty

/-- The macro-instantiation lookup table (a Python dict keyed by
location strings; prepending models overwriting). -/
def macroLookup (m : List (String × String)) (k : String) : Option String :=
  match m with
  | [] => none
  | (k', v) :: rest => if k' = k then some v else macroLookup rest k

/-- The traversal loop of `_traverse_ast` (ccindex.py:768-792): collect
macro-instantiation sites, filter to interesting named nodes of the
target file, visit each, and assign the sequential id
`"<target>#<count>"`. -/
def traverseFold (env : FsEnv) (target : String) (userPaths : List String) :
    List Cursor → List (String × String) → List (List (Key × Value)) → Nat →
    Except String (List (List (Key × Value)))
  | [], _, symbols, _ => .ok symbols
  | c :: rest, mmap, symbols, count =>
    let c_filename := pyFileStr c.location.file
    let mmap :=
      if c.kind = .macro_instantiation ∧
          (c_filename = target ∨ _is_in_paths env c_filename userPaths = true) then
        (_format_location c.location, c.spelling) :: mmap
      else mmap
    if c_filename ≠ target then
      traverseFold env target userPaths rest mmap symbols count
    else if c.kind ∉ interested_CursorKinds then
      traverseFold env target userPaths rest mmap symbols count
    else if c.spelling = "" then
      traverseFold env target userPaths rest mmap symbols count
    else
      match _visit_cursor c (macroLookup mmap) with
      | .error e => .error e
      | .ok symbol =>
        let count := count + 1
        let symbol := setKey symbol .id (.vStr (target ++ "#" ++ toString count))
        traverseFold env target userPaths rest mmap (symbols ++ [symbol]) count

/-- `_traverse_ast` (ccindex.py:764-793). -/
def _traverse_ast (env : FsEnv) (root_cursors : List Cursor) (target : String)
    (userPaths : List String) : Except String (List (List (Key × Value))) :=
  traverseFold env target userPaths root_cursors [] [] 0

/-- `_get_symbols` (ccindex.py:819-890): verify include paths, parse
(external; the parse result is `tu`, the wall clock is read around it),
traverse, and assemble the result dict
`{symbols, includes, errors, time_parsing, time_traversing}`. -/
def _get_symbols (env : FsEnv) (tu : TranslationUnitModel)
    (target_filename : String) (user_include_paths_str : String)
    (clock : Int × Int × Int × Int) : Except String (List (Key × Value)) :=
  let user_include_paths :=
    if user_include_paths_str ≠ "" then (pySplit user_include_paths_str ",").map pyTrim
    else []
  let include_paths := SYS_INCLUDE_PATHS ++ user_include_paths
  if ¬ _verify_include_paths env include_paths then
    .error "sys.exit(1)"
  else
    let parsing_time := clock.2.1 - clock.1
    match _traverse_ast env tu.cursors target_filename user_include_paths with
    | .error e => .error e
    | .ok symbols =>
      let traversing_time := clock.2.2.2 - clock.2.2.1
      let include_list := (tu.includes.filter (fun inc =>
          decide (pyFileStr inc.location.file = target_filename) ||
          _is_in_paths env (pyFileStr inc.location.file) user_include_paths)).map
        (fun inc => Value.vDict
          [(.file, .vStr inc.includeFile),
           (.included_at, .vStr (_format_location inc.location)),
           (.depth, .vInt inc.depth)])
      .ok [(.symbols, .vList (symbols.map Value.vDict)),
           (.includes, .vList include_list),
           (.errors, .vList (tu.diagnostics.map Value.vStr)),
           (.time_parsing, .vInt parsing_time),
           (.time_traversing, .vInt traversing_time)]

/-- An environment in which every include path exists. -/
def envAllDirs : FsEnv := ⟨fun _ => true, fun s => s⟩

/-- An empty translation unit. -/
def tuEmpty : TranslationUnitModel := ⟨[], [], []⟩

/-- C6, counterexample.  Two runs on byte-identical input with identical
include paths, whose clock readings differ (as wall clocks of distinct
runs do), return different full results: the `time_parsing` field is 1
in one run and 2 in the other, so the full returned result is not
byte-identical. -/
theorem ccindex_C6_counterexample :
    _get_symbols envAllDirs tuEmpty "a.cc" "" (0, 1, 1, 2)
      ≠ _get_symbols envAllDirs tuEmpty "a.cc" "" (0, 2, 2, 5) := by
  intro h
  have h1 : (_get_symbols envAllDirs tuEmpty "a.cc" "" (0, 1, 1, 2)).map
      (fun d => getKey d .time_parsing) = .ok (some (.vInt 1)) := by rfl
  have h2 : (_get_symbols envAllDirs tuEmpty "a.cc" "" (0, 2, 2, 5)).map
      (fun d => getKey d .time_parsing) = .ok (some (.vInt 2)) := by rfl
  rw [h, h2] at h1
  have h3 := Value.vInt.inj (Option.some.inj (Except.ok.inj h1))
  exact absurd h3 (by decide)

/-- C6, amended.  Two runs of the engine on byte-identical input with
identical include paths agree on everything except the elapsed-time
measurements: the `symbols` (ids, locations, declarations included),
`includes` and `errors` components of the two returned results are
identical for any two clock read-outs; only `time_parsing` and
`time_traversing` depend on the clock. -/
theorem ccindex_C6 (env : FsEnv) (tu : TranslationUnitModel)
    (target ups : String) (clockA clockB : Int × Int × Int × Int) :
    (_get_symbols env tu target ups clockA).map
        (fun d => (getKey d .symbols, getKey d .includes, getKey d .errors))
      = (_get_symbols env tu target ups clockB).map
        (fun d => (getKey d .symbols, getKey d .includes, getKey d .errors)) := by
  unfold _get_symbols
  split <;> dsimp only <;> split <;> (first | rfl | (split <;> rfl))
